import Mathlib

/-!
# Verification of the SDG assessment scoring engine

A shallow embedding of the scoring engine implemented by the
`SDGAssessmentToolkit` class in `toolkit_logic.py`: the static question
catalog and rule tables, response validation, raw-score accumulation,
max-score normalization, the synergy-bonus pass, record assembly,
aggregation and insight generation.

Modelling conventions:
* Python numbers are modelled as `ℚ`; Python's `round(x, n)` (banker's
  rounding) is modelled exactly on rationals by `pyround`.
* A response value is either a string or a list of strings (`Answer`),
  matching the two widget shapes the engine consumes; Python truthiness of
  those two shapes is `Answer.truthy`.
* Python dicts that the engine only ever reads through `.get`/iteration are
  modelled as association lists (iteration order = insertion order) or as
  total functions with default `0`, whichever the source's access pattern
  uses.
* `calculate_raw_scores` can raise a `TypeError` ("unhashable type: 'list'")
  when a radio question's recorded answer is a list (the membership test
  `response in question['options']` hashes the answer); this is modelled
  with `Except String`.  The outer `try/except` of
  `calculate_assessment_results` converts it into the generic
  `"Calculation error: ..."` result.
* `datetime.now().isoformat()` is modelled as an explicit `now : String`
  argument to the scoring entry point.
-/

namespace SDGToolkit

/-- Round-half-to-even to an integer, Python's `round(x)` on exact values. -/
def round_half_even (x : ℚ) : ℤ :=
  if Int.fract x < 1 / 2 then ⌊x⌋
  else if 1 / 2 < Int.fract x then ⌊x⌋ + 1
  else if 2 ∣ ⌊x⌋ then ⌊x⌋ else ⌊x⌋ + 1

/-- Python's `round(x, n)` (banker's rounding), on rationals. -/
def pyround (x : ℚ) (n : ℕ) : ℚ :=
  (round_half_even (x * 10 ^ n) : ℚ) / 10 ^ n

/-- A recorded answer: a single option label (radio) or a list of selected
labels (checkbox). -/
inductive Answer : Type
  | str (s : String)
  | list (l : List String)
  deriving DecidableEq, Repr

/-- Python truthiness of an answer: the empty string and the empty list are
falsy, everything else is truthy. -/
def Answer.truthy : Answer → Bool
  | .str s => !(s == "")
  | .list l => !l.isEmpty

/-- Answer types appearing in the catalog. -/
inductive QType : Type
  | radio
  | checkbox
  deriving DecidableEq, Repr

/-- A question definition from the catalog. -/
structure Question : Type where
  id : String
  sdg_id : ℕ
  qtype : QType
  weight : ℚ
  options : List (String × ℚ)
  deriving DecidableEq, Repr
/-- The static question catalog (`_load_sdg_questions`), transcribed from the source:
ordered sections, each holding questions with id, owning SDG, answer type, weight and
the ordered option-label-to-point-value mapping.  The prompt texts are semantically
inert for scoring and are omitted. -/
def sdg_questions : List (String × List Question) := [
  ("1: Basic Needs & Economy", [
    { id := "q1", sdg_id := 1, qtype := .radio, weight := 1.0,
      options := [("Not applicable to this project", 0),
      ("Implements basic efficiency measures with modest cost reduction (~10-15%)", 1),
      ("Incorporates advanced systems reducing operational costs by approximately 30-40%", 2),
      ("Features comprehensive efficiency strategies reducing costs by approximately 50-60%", 3),
      ("Achieves near-zero operational costs through integrated passive and active systems", 4),
      ("Generates surplus resources (energy, water, etc.) that provide economic benefit to occupants", 5)] },
    { id := "q2", sdg_id := 1, qtype := .checkbox, weight := 1.0,
      options := [("Incorporates spaces that support income-generating activities", 1),
      ("Reduces transportation costs through location or connectivity features", 1),
      ("Provides flexible spaces adaptable to changing economic conditions", 1),
      ("Includes infrastructure resilient to environmental/economic disruptions", 1),
      ("Offers tiered affordability options for diverse economic circumstances", 1)] },
    { id := "q3", sdg_id := 2, qtype := .radio, weight := 1.0,
      options := [("Not applicable to this project", 0),
      ("Basic consideration with no dedicated productive spaces", 1),
      ("Allocation of shared green spaces for future conversion", 2),
      ("Integration of designated community garden spaces", 3),
      ("Comprehensive productive landscape strategy", 4),
      ("Full food system integration (production, processing, distribution)", 5)] },
    { id := "q4", sdg_id := 2, qtype := .checkbox, weight := 1.0,
      options := [("Incorporates composting infrastructure", 1),
      ("Provides appropriate food storage and preservation spaces", 1),
      ("Includes design elements that extend growing seasons", 1),
      ("Features water collection/irrigation systems for food production", 1),
      ("Allocates spaces for food education and skill-building", 1)] }]),
  ("2: Health & Education", [
    { id := "q5", sdg_id := 3, qtype := .checkbox, weight := 1.0,
      options := [("Biophilic design elements (natural elements, materials, patterns)", 1),
      ("Spaces for mindfulness, meditation, or quiet reflection", 1),
      ("Access to quality daylighting", 1),
      ("Views to nature or green spaces", 1),
      ("Design fostering social connection while respecting privacy", 1)] },
    { id := "q6", sdg_id := 3, qtype := .radio, weight := 1.0,
      options := [("Not applicable to this project", 0),
      ("Meets basic accessibility with limited active design", 1),
      ("Incorporates some passive strategies (e.g., visible stairs)", 2),
      ("Features dedicated spaces for physical activity", 3),
      ("Comprehensive active design with connected indoor-outdoor spaces", 4),
      ("Fully integrated health-promoting design with programming and monitoring", 5)] },
    { id := "q7", sdg_id := 4, qtype := .checkbox, weight := 1.0,
      options := [("Mobility accessibility (beyond code requirements)", 1),
      ("Visual accessibility (wayfinding, signage)", 1),
      ("Auditory accessibility (acoustics, listening systems)", 1),
      ("Cognitive/neurodiversity considerations", 1),
      ("Flexible learning environments", 1)] },
    { id := "q8", sdg_id := 4, qtype := .radio, weight := 1.0,
      options := [("Not applicable to this project", 0),
      ("Basic information display areas", 1),
      ("Dedicated spaces for structured learning", 2),
      ("Integrated formal and informal learning zones", 3),
      ("Comprehensive learning ecosystem with community connections", 4),
      ("Innovation-focused environment supporting experimentation", 5)] }]),
  ("3: Inclusion & Water", [
    { id := "q9", sdg_id := 5, qtype := .checkbox, weight := 1.0,
      options := [("Diverse design team with gender representation", 1),
      ("Equitable compensation structures", 1),
      ("Procurement policies prioritizing diverse contractors", 1),
      ("Site management practices supporting diverse construction roles", 1),
      ("Equitable leadership opportunities", 1)] },
    { id := "q10", sdg_id := 5, qtype := .radio, weight := 1.0,
      options := [("Not applicable to this project", 0),
      ("Basic code compliance", 1),
      ("Initial stakeholder analysis includes gender data", 2),
      ("Intentional design features for diverse user needs", 3),
      ("Comprehensive user-centered design with balanced representation", 4),
      ("Transformative approach challenging traditional gender assumptions", 5)] },
    { id := "q11", sdg_id := 6, qtype := .radio, weight := 1.0,
      options := [("Not applicable to this project", 0),
      ("Basic compliance with conventional fixtures", 1),
      ("Moderate reduction with low-flow fixtures and rainwater collection", 2),
      ("Advanced management with greywater reuse", 3),
      ("Comprehensive strategy achieving 50%+ reduction", 4),
      ("Net-positive water approach contributing to watershed health", 5)] },
    { id := "q12", sdg_id := 6, qtype := .checkbox, weight := 1.0,
      options := [("Construction-phase protections (pollutant discharge)", 1),
      ("Stormwater management with filtration", 1),
      ("Potable water quality assurance", 1),
      ("Ecosystem protection/restoration of water features", 1),
      ("Long-term maintenance protocols for water systems", 1)] }]),
  ("4: Energy & Resources", [
    { id := "q13", sdg_id := 7, qtype := .radio, weight := 1.0,
      options := [("Not applicable to this project", 0),
      ("Basic energy code compliance", 1),
      ("Moderate efficiency (25-30% better) with some renewables", 2),
      ("Advanced performance (40-50% better) with significant renewables", 3),
      ("Near net-zero energy performance", 4),
      ("Net-positive energy building", 5)] },
    { id := "q14", sdg_id := 7, qtype := .checkbox, weight := 1.0,
      options := [("Passive design for power outages", 1),
      ("Systems reducing operational costs", 1),
      ("Distributed energy resources for grid reliability", 1),
      ("Energy monitoring and smart systems", 1),
      ("Features ensuring equitable energy access", 1)] },
    { id := "q15", sdg_id := 8, qtype := .radio, weight := 1.0,
      options := [("Not applicable to this project", 0),
      ("Basic compliance with labor standards", 1),
      ("Implementation of fair labor practices with some local preference", 2),
      ("Structured involvement of local SMEs", 3),
      ("Comprehensive local economic strategy", 4),
      ("Transformative approach with full integration of local enterprises/labor", 5)] },
    { id := "q16", sdg_id := 12, qtype := .checkbox, weight := 1.0,
      options := [("Comprehensive Life Cycle Assessment (LCA) conducted", 1),
      ("Preference for locally-sourced materials", 1),
      ("Selection based on renewable resource management", 1),
      ("Durability and maintenance factored into selection", 1),
      ("Incorporation of recycled/salvaged materials", 1)] }]),
  ("5: Infrastructure & Innovation", [
    { id := "q17", sdg_id := 9, qtype := .checkbox, weight := 1.0,
      options := [("Integration of shared infrastructure", 1),
      ("Renovation or adaptive reuse of existing buildings", 1),
      ("Implementation of smart technologies for optimization", 1),
      ("Design features enhancing climate resilience", 1),
      ("Systems reducing operational costs while maintaining service", 1)] },
    { id := "q18", sdg_id := 9, qtype := .radio, weight := 1.0,
      options := [("Not applicable to this project", 0),
      ("Standard construction methods", 1),
      ("Established sustainable techniques adapted to local context", 2),
      ("Innovative processes improving resource efficiency", 3),
      ("Development and testing of new building systems", 4),
      ("Transformative approach combining technical innovation with local development", 5)] },
    { id := "q19", sdg_id := 10, qtype := .checkbox, weight := 1.0,
      options := [("Barrier-free circulation systems (beyond code)", 1),
      ("Sensory accessibility features (visual, tactile, acoustic)", 1),
      ("Adaptable spaces for different abilities and ages", 1),
      ("Design elements reflecting diverse cultural identities", 1),
      ("Technology integration enhancing usability", 1)] },
    { id := "q20", sdg_id := 10, qtype := .radio, weight := 1.0,
      options := [("Not applicable to this project", 0),
      ("Basic compliance with inclusivity standards", 1),
      ("At least one specific mechanism for economic accessibility", 2),
      ("Mixed-use/mixed-income approach with multiple tenure options", 3),
      ("Comprehensive inclusion strategy with affordability targets", 4),
      ("Transformative approach addressing systemic barriers", 5)] }]),
  ("6: Sustainable Cities & Environment", [
    { id := "q21", sdg_id := 11, qtype := .checkbox, weight := 1.0,
      options := [("Affordable housing with universal design and green space access", 1),
      ("Multi-hazard resilience measures", 1),
      ("Resource-efficient systems (waste, water, energy)", 1),
      ("Preservation of cultural/natural heritage", 1),
      ("Inclusive public spaces for diverse groups", 1)] },
    { id := "q22", sdg_id := 11, qtype := .radio, weight := 1.0,
      options := [("Not applicable to this project", 0),
      ("Basic compliance with minimum standards", 1),
      ("Moderate implementation of sustainable features beyond code", 2),
      ("Integrated approach with clear resilience benefits", 3),
      ("Comprehensive sustainability framework (social, environmental, economic)", 4),
      ("Transformative model demonstrating innovative approaches", 5)] },
    { id := "q23", sdg_id := 12, qtype := .checkbox, weight := 1.0,
      options := [("Integration within a recognized sustainability framework", 1),
      ("Use of certified bio-based/renewable materials", 1),
      ("Implementation of modular/adaptable systems for reuse", 1),
      ("Construction waste management plan with diversion targets", 1),
      ("Material selection prioritizing circular economy principles", 1)] },
    { id := "q24", sdg_id := 12, qtype := .radio, weight := 1.0,
      options := [("Not applicable to this project", 0),
      ("Basic compliance with standard procurement", 1),
      ("Selective sustainability criteria for major materials", 2),
      ("Comprehensive sustainable procurement strategy", 3),
      ("Integrated sustainability reporting with third-party verification", 4),
      ("Transformative approach with full lifecycle transparency", 5)] }]),
  ("7: Climate & Ecosystems", [
    { id := "q25", sdg_id := 13, qtype := .checkbox, weight := 1.0,
      options := [("Passive design for extreme temperatures", 1),
      ("Structural adaptations for natural hazards", 1),
      ("Water management for drought and flood", 1),
      ("Material selections enhancing durability", 1),
      ("Monitoring systems for environmental conditions", 1)] },
    { id := "q26", sdg_id := 13, qtype := .radio, weight := 1.0,
      options := [("Not applicable to this project", 0),
      ("Basic efficiency with minimal embodied carbon consideration", 1),
      ("Moderate carbon reduction (20-30%)", 2),
      ("Significant reduction (40-50%)", 3),
      ("Advanced reduction (60-70%)", 4),
      ("Regenerative approach achieving net carbon negativity", 5)] },
    { id := "q27", sdg_id := 14, qtype := .checkbox, weight := 1.0,
      options := [("Comprehensive plastic waste management (construction)", 1),
      ("Limits on single-use plastic packaging for materials", 1),
      ("Material selection restricting plastic components", 1),
      ("Designated spaces for waste sorting", 1),
      ("Stormwater filtration to capture microplastics", 1)] },
    { id := "q28", sdg_id := 14, qtype := .radio, weight := 1.0,
      options := [("Not applicable to this project", 0),
      ("Basic compliance with local regulations", 1),
      ("Measures to reduce construction runoff", 2),
      ("Comprehensive stormwater management with filtration", 3),
      ("Integrated water management with marine-friendly landscaping", 4),
      ("Restorative design contributing to coastal ecosystem health", 5)] },
    { id := "q29", sdg_id := 15, qtype := .checkbox, weight := 1.0,
      options := [("Conservation/replacement of native vegetation", 1),
      ("Use of certified sustainable wood", 1),
      ("Water-sensitive landscaping", 1),
      ("Habitat preservation for local wildlife", 1),
      ("Building surface vegetation (green roofs/walls)", 1),
      ("Efficient land use (compact/reuse)", 1),
      ("Site design maintaining >40% permeable/vegetated surfaces", 1),
      ("Restoration of degraded land", 1)] },
    { id := "q30", sdg_id := 16, qtype := .checkbox, weight := 1.0,
      options := [("Design enhancing perceived safety", 1),
      ("Integrated security features", 1),
      ("Documented anti-corruption procedures", 1),
      ("Transparent dispute resolution mechanisms", 1),
      ("Inclusive decision-making processes", 1),
      ("Systematic client/user feedback collection", 1),
      ("Implementation of ethical standards/certifications", 1)] },
    { id := "q31", sdg_id := 17, qtype := .checkbox, weight := 1.0,
      options := [("Integration within a formal cooperation program", 1),
      ("Compliance with national/regional frameworks", 1),
      ("Public dissemination of data/innovations", 1),
      ("Formation of new cross-sector partnerships", 1),
      ("Assembly of a multidisciplinary team for sustainability", 1),
      ("Contribution of performance data to databases", 1),
      ("Technology or knowledge transfer", 1),
      ("Participation in industry transformation initiatives", 1)] }])
]

/-- `_load_sdg_info`: SDG id, short name, one-line description. -/
def sdg_info : List (ℕ × String × String) := [
  (1, "No Poverty", "End poverty in all its forms everywhere"),
  (2, "Zero Hunger", "End hunger, achieve food security and improved nutrition"),
  (3, "Good Health", "Ensure healthy lives and promote well-being for all"),
  (4, "Quality Education", "Ensure inclusive and equitable quality education"),
  (5, "Gender Equality", "Achieve gender equality and empower all women and girls"),
  (6, "Clean Water", "Ensure availability and sustainable management of water"),
  (7, "Affordable Energy", "Ensure access to affordable, reliable, sustainable energy"),
  (8, "Decent Work", "Promote sustained, inclusive economic growth and employment"),
  (9, "Innovation", "Build resilient infrastructure, promote innovation"),
  (10, "Reduced Inequalities", "Reduce inequality within and among countries"),
  (11, "Sustainable Cities", "Make cities and human settlements inclusive and sustainable"),
  (12, "Responsible Consumption", "Ensure sustainable consumption and production patterns"),
  (13, "Climate Action", "Take urgent action to combat climate change"),
  (14, "Life Below Water", "Conserve and sustainably use the oceans, seas and marine resources"),
  (15, "Life on Land", "Protect, restore and promote terrestrial ecosystems"),
  (16, "Peace & Justice", "Promote peaceful and inclusive societies for sustainable development"),
  (17, "Partnerships", "Strengthen the means of implementation and revitalize partnerships")]

/-- The 17 SDG ids in `sdg_info` insertion order (ascending). -/
def sdg_ids : List ℕ := sdg_info.map Prod.fst

/-- `_load_category_mapping`: SDG id to thematic category. -/
def sdg_to_category_map : List (ℕ × String) := [
  (1, "People"), (2, "People"), (3, "People"), (4, "People"), (5, "People"),
  (6, "Planet"), (12, "Planet"), (13, "Planet"), (14, "Planet"), (15, "Planet"),
  (7, "Prosperity"), (8, "Prosperity"), (9, "Prosperity"), (10, "Prosperity"), (11, "Prosperity"),
  (16, "Peace"), (17, "Partnership")]

/-- A performance-level band: name, inclusive bounds, display color. -/
structure PerfLevel : Type where
  level : String
  lmin : ℚ
  lmax : ℚ
  color : String
  deriving DecidableEq, Repr

/-- `self.performance_levels`, in dict insertion order. -/
def performance_levels : List PerfLevel := [
  ⟨"Exemplary", 9, 10, "#28a745"⟩,
  ⟨"Advanced", 6, 8.99, "#90ee90"⟩,
  ⟨"Basic", 3, 5.99, "#ffc107"⟩,
  ⟨"Minimal", 0.1, 2.99, "#dc3545"⟩,
  ⟨"No Score", 0, 0, "#F1FAEE"⟩]

/-- `self.sdg_synergy_map`: directed adjacency from source SDG to recipients. -/
def sdg_synergy_map : List (ℕ × List ℕ) := [
  (1, [7, 10, 11]), (2, [3, 12, 15]), (3, [4, 11, 16]),
  (6, [3, 11, 14]), (7, [1, 9, 13]), (8, [1, 9, 12]),
  (11, [3, 10, 13]), (12, [8, 13, 15]), (13, [7, 11, 15])]

/-- First-match association-list lookup (Python dict read access). -/
def alist_find {α β : Type} [DecidableEq α] : List (α × β) → α → Option β
  | [], _ => none
  | p :: rest, k => if p.1 = k then some p.2 else alist_find rest k

/-- `get_performance_level`: scan the bands in order, first inclusive match
wins, default `"No Score"`. -/
def levels_scan (score : ℚ) : List PerfLevel → String
  | [] => "No Score"
  | l :: ls => if l.lmin ≤ score ∧ score ≤ l.lmax then l.level else levels_scan score ls

/-- `get_performance_level` from the source. -/
def get_performance_level (score : ℚ) : String :=
  levels_scan score performance_levels

/-- `get_performance_color` from the source. -/
def get_performance_color (score : ℚ) : String :=
  match performance_levels.find? (fun l => l.level == get_performance_level score) with
  | some l => l.color
  | none => "#cccccc"

/-- `get_all_questions`: flatten the sections in order (question ids are
unique, so the id-keyed dict of the source is first-match lookup here). -/
def get_all_questions : List Question :=
  (sdg_questions.map Prod.snd).flatten

/-- `validate_responses`: reject an empty response set, or one in which every
value is falsy. -/
def validate_responses (responses : List (String × Answer)) : Bool × List String :=
  if responses.isEmpty then (false, ["No responses provided"])
  else if responses.all (fun p => !p.2.truthy) then (false, ["No questions have been answered."])
  else (true, [])

/-- Substring occurrence over character lists, Python's `needle in hay`. -/
def contains_seq (needle : List Char) : List Char → Bool
  | [] => needle.isEmpty
  | c :: rest => needle.isPrefixOf (c :: rest) || contains_seq needle rest

/-- ASCII lower-casing of one character (`str.lower()` restricted to the
ASCII catalog labels). -/
def lower_char (c : Char) : Char :=
  if 'A' ≤ c ∧ c ≤ 'Z' then Char.ofNat (c.toNat + 32) else c

/-- `"not applicable" in k.lower()` from `calculate_max_scores`. -/
def not_applicable_in (k : String) : Bool :=
  contains_seq "not applicable".data (k.data.map lower_char)

/-- The per-question theoretical maximum from `calculate_max_scores`:
options whose label contains "not applicable" are excluded; a radio question
contributes its largest remaining value (0 if none remain); the tiered
checkbox questions q29/q30/q31 contribute a fixed 5; any other checkbox
question contributes the sum of remaining values. -/
def question_max (q : Question) : ℚ :=
  let valid_options := q.options.filter (fun p => !not_applicable_in p.1)
  match q.qtype with
  | .radio =>
    match valid_options.map Prod.snd with
    | [] => 0
    | v :: vs => vs.foldl max v
  | .checkbox =>
    if ["q29", "q30", "q31"].contains q.id then 5
    else (valid_options.map Prod.snd).sum

/-- `calculate_max_scores`: accumulate `question_max * weight` per owning SDG
(a dict with default 0, modelled as a total function). -/
def calculate_max_scores : ℕ → ℚ :=
  get_all_questions.foldl
    (fun acc q => fun s => if s = q.sdg_id then acc s + question_max q * q.weight else acc s)
    (fun _ => 0)

/-- The q29 (and q31) scoring tiers from `calculate_raw_scores`. -/
def q29_tiers : List ((ℕ × ℕ) × ℚ) :=
  [((0, 1), 1), ((2, 3), 2), ((4, 5), 3), ((6, 7), 4), ((8, 8), 5)]

/-- The q30 scoring tiers from `calculate_raw_scores`. -/
def q30_tiers : List ((ℕ × ℕ) × ℚ) :=
  [((0, 1), 1), ((2, 3), 2), ((4, 5), 3), ((6, 6), 4), ((7, 7), 5)]

/-- The q31 scoring tiers from `calculate_raw_scores`. -/
def q31_tiers : List ((ℕ × ℕ) × ℚ) :=
  [((0, 1), 1), ((2, 3), 2), ((4, 5), 3), ((6, 7), 4), ((8, 8), 5)]

/-- `_calculate_tiered_score`: first tier whose inclusive count range contains
`num_checked` wins; 0 if no tier matches. -/
def calculate_tiered_score (num_checked : ℕ) : List ((ℕ × ℕ) × ℚ) → ℚ
  | [] => 0
  | ((lower_bound, upper_bound), score) :: rest =>
    if lower_bound ≤ num_checked ∧ num_checked ≤ upper_bound then score
    else calculate_tiered_score num_checked rest

/-- Value of one selected checkbox item: its option value if the label is in
the option table, else 0 (unrecognized labels are skipped by the source's
membership test). -/
def option_value (options : List (String × ℚ)) (item : String) : ℚ :=
  match options.find? (fun p => p.1 == item) with
  | some p => p.2
  | none => 0

/-- Score of a checkbox answer list: tier lookup by count for q29/q30/q31,
else the sum of recognized option values. -/
def checkbox_list_score (q : Question) (l : List String) : ℚ :=
  if q.id == "q29" then calculate_tiered_score l.length q29_tiers
  else if q.id == "q30" then calculate_tiered_score l.length q30_tiers
  else if q.id == "q31" then calculate_tiered_score l.length q31_tiers
  else (l.map (option_value q.options)).sum

/-- One iteration of the `calculate_raw_scores` loop: skip unknown ids and
falsy answers; a checkbox question scores only list answers; a radio question
hashes the answer against its option table — for a list answer that raises
`TypeError` (modelled as `.error`), for a string it adds the option value if
the label is recognized. -/
def process_response (acc : ℕ → ℚ) (p : String × Answer) : Except String (ℕ → ℚ) :=
  match get_all_questions.find? (fun q => q.id == p.1) with
  | none => .ok acc
  | some q =>
    if !p.2.truthy then .ok acc
    else
      match q.qtype, p.2 with
      | .checkbox, .list l =>
        .ok (fun s => if s = q.sdg_id then acc s + checkbox_list_score q l * q.weight else acc s)
      | .checkbox, .str _ => .ok acc
      | .radio, .str a =>
        if (q.options.find? (fun o => o.1 == a)).isSome then
          .ok (fun s => if s = q.sdg_id then acc s + option_value q.options a * q.weight else acc s)
        else .ok acc
      | .radio, .list _ => .error "unhashable type: \x27list\x27"

/-- `calculate_raw_scores`: fold the response items (dict iteration order)
into a per-SDG total (dict with default 0, modelled as a total function). -/
def calculate_raw_scores (responses : List (String × Answer)) : Except String (ℕ → ℚ) :=
  responses.foldlM process_response (fun _ => 0)

/-- Per-SDG Direct Score from `calculate_assessment_results`:
`round((raw / max) * 10, 2)` when the SDG's maximum is positive, else 0. -/
def direct_score (raw : ℕ → ℚ) (sdg : ℕ) : ℚ :=
  if 0 < calculate_max_scores sdg then pyround (raw sdg / calculate_max_scores sdg * 10) 2
  else 0

/-- The synergy contribution derived from a source SDG's own direct score. -/
def bonus_contribution (source_score : ℚ) : ℚ :=
  if 7 ≤ source_score ∧ source_score < 8 then 0.5
  else if 8 ≤ source_score ∧ source_score < 9 then 0.7
  else if 9 ≤ source_score then 1.0
  else 0

/-- Distribute one source's positive contribution to its listed recipients:
a recipient already at the 2.0 cap is skipped; otherwise
`round(current + min(value, 2.0 - current), 2)` is stored. -/
def apply_bonus (v : ℚ) (state : ℕ → ℚ) (recipients : List ℕ) : ℕ → ℚ :=
  recipients.foldl
    (fun st r =>
      if st r < 2 then
        fun x => if x = r then pyround (st r + min v (2 - st r)) 2 else st x
      else st)
    state

/-- One iteration of the synergy loop: a source not in the synergy map, or
one whose contribution is 0, changes nothing; otherwise its contribution is
distributed to its recipients. -/
def bonus_step (ds : ℕ → ℚ) (st : ℕ → ℚ) (s : ℕ) : ℕ → ℚ :=
  match alist_find sdg_synergy_map s with
  | none => st
  | some recipients =>
    let bonus_value := bonus_contribution (ds s)
    if 0 < bonus_value then apply_bonus bonus_value st recipients else st

/-- The synergy-bonus pass of `calculate_assessment_results`: every SDG's
bonus starts at 0; each source in `sources` (dict iteration order) that
appears in the synergy map and has a positive contribution distributes it to
its recipients under the 2.0 cap. -/
def compute_bonus_points (ds : ℕ → ℚ) (sources : List ℕ) : ℕ → ℚ :=
  sources.foldl (bonus_step ds) (fun _ => 0)

/-- Short SDG name from `sdg_info`. -/
def sdg_name (sdg : ℕ) : String :=
  match alist_find sdg_info sdg with
  | some p => p.1
  | none => ""

/-- Category of an SDG from `sdg_to_category_map`. -/
def sdg_category (sdg : ℕ) : String :=
  match alist_find sdg_to_category_map sdg with
  | some c => c
  | none => ""

/-- One row of `results_data` / `scores_df`. -/
structure SDGRec : Type where
  SDG_ID : ℕ
  SDG_Name_Short : String
  Direct_Score : ℚ
  Bonus_Points : ℚ
  Final_Score : ℚ
  Performance : String
  Performance_Color : String
  Category : String
  deriving DecidableEq, Repr, Inhabited

/-- Assemble one per-SDG record: the stored Final_Score is
`round(min(10.0, direct + bonus), 1)`; the performance label and color are
derived from the un-rounded final score. -/
def make_record (ds bs : ℕ → ℚ) (sdg : ℕ) : SDGRec :=
  let direct := ds sdg
  let bonus := bs sdg
  let final_score := min 10 (direct + bonus)
  { SDG_ID := sdg
    SDG_Name_Short := sdg_name sdg
    Direct_Score := direct
    Bonus_Points := bonus
    Final_Score := pyround final_score 1
    Performance := get_performance_level final_score
    Performance_Color := get_performance_color final_score
    Category := sdg_category sdg }

/-- `sort_values(by='Final_Score', ascending=False)` as a relation:
descending on the stored Final_Score.  (pandas' default quicksort leaves the
relative order of ties unspecified; we fix a deterministic sort.) -/
def final_desc (a b : SDGRec) : Prop := b.Final_Score ≤ a.Final_Score

/-- Ascending companion of `final_desc`, for the weaknesses re-sort. -/
def final_asc (a b : SDGRec) : Prop := a.Final_Score ≤ b.Final_Score

instance : DecidableRel final_desc := fun a b =>
  inferInstanceAs (Decidable (b.Final_Score ≤ a.Final_Score))

instance : DecidableRel final_asc := fun a b =>
  inferInstanceAs (Decidable (a.Final_Score ≤ b.Final_Score))

instance : IsTotal SDGRec final_desc :=
  ⟨fun a b => le_total b.Final_Score a.Final_Score⟩

instance : IsTrans SDGRec final_desc :=
  ⟨fun _ _ _ h1 h2 => le_trans h2 h1⟩

instance : IsTotal SDGRec final_asc :=
  ⟨fun a b => le_total a.Final_Score b.Final_Score⟩

instance : IsTrans SDGRec final_asc :=
  ⟨fun _ _ _ h1 h2 => le_trans h1 h2⟩

/-- `scores_df.sort_values(by='Final_Score', ascending=False)`. -/
def sorted_records (records : List SDGRec) : List SDGRec :=
  List.insertionSort final_desc records

/-- `sorted_df.head(5)`: the strengths list. -/
def strengths_of (records : List SDGRec) : List SDGRec :=
  (sorted_records records).take 5

/-- `sorted_df[sorted_df['Final_Score'] < 6]`: the below-6 pool, still in
descending order. -/
def weak_pool (records : List SDGRec) : List SDGRec :=
  (sorted_records records).filter (fun r => decide (r.Final_Score < 6))

/-- `... .tail(5).sort_values('Final_Score')`: the last (lowest) five of the
below-6 pool, re-sorted ascending. -/
def weaknesses_of (records : List SDGRec) : List SDGRec :=
  List.insertionSort final_asc ((weak_pool records).drop ((weak_pool records).length - 5))

/-- pandas `Series.mean()`. -/
def mean (l : List ℚ) : ℚ := l.sum / l.length

/-- One category rollup entry. -/
structure CatScore : Type where
  Final_Score : ℚ
  Performance : String
  Performance_Color : String
  deriving DecidableEq, Repr, Inhabited

/-- The five category names in the lexicographic order in which
`scores_df.groupby('Category')` emits its (always complete) group keys. -/
def categories_sorted : List String :=
  ["Partnership", "Peace", "People", "Planet", "Prosperity"]

/-- `scores_df.groupby('Category').agg(mean).round(1)` plus the performance
label/color annotation loop. -/
def category_scores_of (records : List SDGRec) : List (String × CatScore) :=
  categories_sorted.map (fun c =>
    let s := pyround (mean ((records.filter (fun r => r.Category == c)).map
      (fun r => r.Final_Score))) 1
    (c, ⟨s, get_performance_level s, get_performance_color s⟩))

/-- Python's `f"{x:.1f}"` for the non-negative one-decimal scores that reach
string formatting here. -/
def fmt1 (q : ℚ) : String :=
  let m := round_half_even (q * 10)
  toString (m / 10) ++ "." ++ toString (m % 10)

/-- Python `max(keys, key=...)`: first key attaining the maximum value. -/
def argmax_first (l : List (String × CatScore)) : String :=
  match l with
  | [] => ""
  | p :: rest =>
    (rest.foldl (fun best q => if best.2.Final_Score < q.2.Final_Score then q else best) p).1

/-- Python `min(keys, key=...)`: first key attaining the minimum value. -/
def argmin_first (l : List (String × CatScore)) : String :=
  match l with
  | [] => ""
  | p :: rest =>
    (rest.foldl (fun best q => if q.2.Final_Score < best.2.Final_Score then q else best) p).1

/-- Final score of a named category in the rollup (dict read access). -/
def cat_final (cs : List (String × CatScore)) (c : String) : ℚ :=
  match alist_find cs c with
  | some v => v.Final_Score
  | none => 0

/-- `_generate_insights`, including the source file's (mojibake) emoji
prefixes, capped at five entries. -/
def generate_insights (records : List SDGRec) (category_scores : List (String × CatScore))
    (overall_score : ℚ) : List String :=
  let overall_level := get_performance_level overall_score
  let first :=
    if overall_level == "Exemplary" then
      "ðŸŒŸ Exemplary Overall Performance (" ++ fmt1 overall_score ++
        "/10). A leading example of sustainable architecture."
    else if overall_level == "Advanced" then
      "ðŸ‘ Advanced Overall Performance (" ++ fmt1 overall_score ++
        "/10). Strong alignment with key sustainability goals."
    else if overall_level == "Basic" then
      "âœ… Basic Overall Performance (" ++ fmt1 overall_score ++
        "/10). A good foundation with clear areas for improvement."
    else
      "ðŸŽ¯ Minimal Overall Performance (" ++ fmt1 overall_score ++
        "/10). Significant opportunities for enhancement."
  let best_category := argmax_first category_scores
  let worst_category := argmin_first category_scores
  let insights :=
    if best_category ≠ worst_category then
      [first,
        "ðŸ’ª Strongest area: \x27" ++ best_category ++
          "\x27 with an average score of " ++ fmt1 (cat_final category_scores best_category) ++
          "/10.",
        "ðŸ”§ Priority area: \x27" ++ worst_category ++
          "\x27 with an average score of " ++ fmt1 (cat_final category_scores worst_category) ++
          "/10."]
    else [first]
  let bonus_sum := (records.map (fun r => r.Bonus_Points)).sum
  let insights :=
    if 0 < bonus_sum then
      insights ++
        ["ðŸ”„ Strong Synergy! Your project earned " ++ fmt1 bonus_sum ++
          " total bonus points from high performance in interconnected SDGs."]
    else insights
  insights.take 5

/-- `scores_df['Performance'].value_counts().to_dict()`: counts per label,
ordered by descending count (a stable sort over first-appearance order; the
tie order of pandas is unspecified). -/
def value_counts (labels : List String) : List (String × ℕ) :=
  List.insertionSort (fun a b : String × ℕ => b.2 ≤ a.2)
    (labels.dedup.map (fun s => (s, labels.count s)))

/-- `_calculate_architecture_metrics` output shape. -/
structure ArchMetrics : Type where
  energy_performance : ℚ
  water_efficiency : ℚ
  material_sustainability : ℚ
  deriving DecidableEq, Repr, Inhabited

/-- One mean-of-subset metric, 0 when no listed SDG is present. -/
def subset_metric (records : List SDGRec) (ids : List ℕ) : ℚ :=
  let scores := (records.filter (fun r => ids.contains r.SDG_ID)).map (fun r => r.Final_Score)
  if scores.isEmpty then 0 else pyround (mean scores) 1

/-- `_calculate_architecture_metrics`: `none` models the empty dict returned
for an empty frame. -/
def calculate_architecture_metrics (records : List SDGRec) : Option ArchMetrics :=
  if records.isEmpty then none
  else some
    { energy_performance := subset_metric records [7, 13]
      water_efficiency := subset_metric records [6, 14]
      material_sustainability := subset_metric records [8, 12, 15] }

/-- The successful result bundle of `calculate_assessment_results`. -/
structure Bundle : Type where
  scores_df : List SDGRec
  category_scores : List (String × CatScore)
  overall_score : ℚ
  strengths : List SDGRec
  weaknesses : List SDGRec
  insights : List String
  performance_distribution : List (String × ℕ)
  architecture_metrics : Option ArchMetrics
  assessment_date : String
  deriving DecidableEq, Repr

/-- The entry point's observable outcome: a structured error object
(message plus optional details) or a result bundle. -/
inductive AssessResult : Type
  | err (message : String) (details : Option (List String))
  | ok (bundle : Bundle)
  deriving DecidableEq, Repr

/-- Assembly of the returned result dict of `calculate_assessment_results`
from the per-SDG records (the aggregation tail of the function). -/
def make_bundle (results_data : List SDGRec) (now : String) : Bundle :=
  let category_scores := category_scores_of results_data
  let overall_score :=
    if results_data.isEmpty then 0
    else pyround (mean (results_data.map (fun r => r.Final_Score))) 1
  { scores_df := results_data
    category_scores := category_scores
    overall_score := overall_score
    strengths := strengths_of results_data
    weaknesses := weaknesses_of results_data
    insights := generate_insights results_data category_scores overall_score
    performance_distribution := value_counts (results_data.map (fun r => r.Performance))
    architecture_metrics := calculate_architecture_metrics results_data
    assessment_date := now }

/-- `calculate_assessment_results`.  `direct_scores` is keyed by
`sdg_info.keys()`, so `sorted(list(set(direct_scores.keys())))` is exactly
`sdg_ids` and the record loop runs over it. -/
def calculate_assessment_results (responses : List (String × Answer)) (now : String) :
    AssessResult :=
  match validate_responses responses with
  | (false, errors) => .err "Invalid responses" (some errors)
  | (true, _) =>
    match calculate_raw_scores responses with
    | .error e => .err ("Calculation error: " ++ e) none
    | .ok raw_scores =>
      let ds := direct_score raw_scores
      let bs := compute_bonus_points ds sdg_ids
      let results_data := sdg_ids.map (make_record ds bs)
      if results_data.isEmpty then
        .err "No scores could be calculated from the provided responses." none
      else .ok (make_bundle results_data now)

/-- Rows of the result bundle (empty for an error result). -/
def AssessResult.records : AssessResult → List SDGRec
  | .ok b => b.scores_df
  | .err _ _ => []

/-- Strengths of the result bundle (empty for an error result). -/
def AssessResult.strengthsL : AssessResult → List SDGRec
  | .ok b => b.strengths
  | .err _ _ => []

/-- Whether the entry point produced a result bundle. -/
def AssessResult.isOkB : AssessResult → Bool
  | .ok _ => true
  | .err _ _ => false

/-- The assessment timestamp, when a bundle was produced. -/
def AssessResult.date? : AssessResult → Option String
  | .ok b => some b.assessment_date
  | .err _ _ => none

/-- Did the entry point return the structured invalid-input rejection? -/
def AssessResult.invalid_inputB : AssessResult → Bool
  | .err m _ => m == "Invalid responses"
  | .ok _ => false

/-- Erase the timestamp, keeping every other field of the outcome. -/
def strip_date : AssessResult → AssessResult
  | .ok b => .ok { b with assessment_date := "" }
  | .err m d => .err m d

/-! ## Verification-side definitions -/

/-- The scores function of a raw-score result, zero for the error case. -/
def raw_or_zero : Except String (ℕ → ℚ) → (ℕ → ℚ)
  | .ok f => f
  | .error _ => fun _ => 0

/-- First option label attaining a question's maximum option value. -/
def max_option_label (options : List (String × ℚ)) : String :=
  match options with
  | [] => ""
  | p :: rest => (rest.foldl (fun best o => if best.2 < o.2 then o else best) p).1

/-- The answer that yields a question's maximum point total: the top-valued
option label for a radio question, every option for a checkbox question
(for the tiered questions, checking all options lands in the top tier). -/
def best_answer (q : Question) : Answer :=
  match q.qtype with
  | .radio => .str (max_option_label q.options)
  | .checkbox => .list (q.options.map Prod.fst)

/-- The response set that answers every question of one SDG with its
maximum-scoring answer and leaves all other questions unanswered. -/
def full_marks_response (sdg : ℕ) : List (String × Answer) :=
  (get_all_questions.filter (fun q => q.sdg_id == sdg)).map (fun q => (q.id, best_answer q))

/-- A list answer free of duplicate labels (string answers vacuously so). -/
def Answer.nodupList : Answer → Prop
  | .str _ => True
  | .list l => l.Nodup

instance : DecidablePred Answer.nodupList := fun a =>
  match a with
  | .str _ => inferInstanceAs (Decidable True)
  | .list l => inferInstanceAs (Decidable l.Nodup)

/-- A response set as the spec's data model describes it: a mapping
(distinct question-id keys) whose multi-select answers are duplicate-free
lists ("order irrelevant, duplicates impossible by construction"). -/
def WellFormedResponses (responses : List (String × Answer)) : Prop :=
  (responses.map Prod.fst).Nodup ∧ ∀ p ∈ responses, p.2.nodupList

instance : DecidablePred WellFormedResponses := fun responses =>
  inferInstanceAs (Decidable (_ ∧ _))

/-- Inclusive membership of a score in a performance band. -/
def level_mem (score : ℚ) (l : PerfLevel) : Prop :=
  l.lmin ≤ score ∧ score ≤ l.lmax

instance : ∀ score l, Decidable (level_mem score l) := fun score l =>
  inferInstanceAs (Decidable (_ ∧ _))

/-- Recipients of a source SDG in the synergy map (empty if not a source). -/
def synergy_recipients (s : ℕ) : List ℕ :=
  (alist_find sdg_synergy_map s).getD []

/-- The un-clamped total synergy contribution a recipient `r` receives from
the listed sources, given the direct scores `ds`. -/
def synergy_raw_total (ds : ℕ → ℚ) (sources : List ℕ) (r : ℕ) : ℚ :=
  (sources.map (fun s => if r ∈ synergy_recipients s then bonus_contribution (ds s) else 0)).sum

/-- Per-SDG list of question ids with their weighted maxima, in catalog
order; its value column sums to `calculate_max_scores sdg`. -/
def sdg_question_maxes (sdg : ℕ) : List (String × ℚ) :=
  (get_all_questions.filter (fun q => q.sdg_id == sdg)).map
    (fun q => (q.id, question_max q * q.weight))

/-- An integer number of tenths (all synergy quantities are such). -/
def Tenth (q : ℚ) : Prop := ∃ j : ℤ, q = j / 10

/-- Concrete accepted response set: the top-scoring answer to q1. -/
def r1 : List (String × Answer) :=
  [("q1", Answer.str "Generates surplus resources (energy, water, etc.) that provide economic benefit to occupants")]

/-- Concrete response set whose only answer is the literal "not applicable"
sentinel string. -/
def r_na : List (String × Answer) :=
  [("q1", Answer.str "not applicable")]

/-- Three selected options for the tiered question q29. -/
def q29_sel3 : List String :=
  ["Conservation/replacement of native vegetation",
   "Use of certified sustainable wood",
   "Water-sensitive landscaping"]

/-- All eight options of the tiered question q29. -/
def q29_sel8 : List String :=
  ["Conservation/replacement of native vegetation",
   "Use of certified sustainable wood",
   "Water-sensitive landscaping",
   "Habitat preservation for local wildlife",
   "Building surface vegetation (green roofs/walls)",
   "Efficient land use (compact/reuse)",
   "Site design maintaining >40% permeable/vegetated surfaces",
   "Restoration of degraded land"]

/-- A constant direct-score assignment used to instantiate general synergy
theorems. -/
def ds_ten : ℕ → ℚ := fun _ => 10

/-! ## Helper lemmas -/

attribute [local semireducible] Rat.add Rat.mul Rat.inv Rat.sub Rat.ofScientific

set_option maxRecDepth 100000

lemma round_half_even_intCast (j : ℤ) : round_half_even (j : ℚ) = j := by
  norm_num [round_half_even, Int.fract_intCast, Int.floor_intCast]

lemma round_half_even_nonneg (x : ℚ) (h : 0 ≤ x) : 0 ≤ round_half_even x := by
  have hf : 0 ≤ ⌊x⌋ := Int.floor_nonneg.mpr h
  unfold round_half_even
  split_ifs <;> omega

lemma round_half_even_le (x : ℚ) (m : ℤ) (h : x ≤ m) : round_half_even x ≤ m := by
  have hf : ⌊x⌋ ≤ m := by
    have := Int.floor_le_floor h
    simpa using this
  have hsucc : ¬ Int.fract x < 1 / 2 → ⌊x⌋ + 1 ≤ m := by
    intro h1
    have h2 : (1 : ℚ) / 2 ≤ x - ⌊x⌋ := by
      have := not_lt.mp h1
      rw [Int.fract] at this
      linarith
    have h3 : (⌊x⌋ : ℚ) < (m : ℚ) := by linarith
    have h4 : ⌊x⌋ < m := by exact_mod_cast h3
    omega
  unfold round_half_even
  split_ifs with h1 h2 h3
  · exact hf
  · exact hsucc h1
  · exact hf
  · exact hsucc h1

lemma pyround_nonneg (x : ℚ) (n : ℕ) (h : 0 ≤ x) : 0 ≤ pyround x n := by
  unfold pyround
  apply div_nonneg _ (by positivity)
  have := round_half_even_nonneg (x * 10 ^ n) (by positivity)
  exact_mod_cast this

lemma pyround_le_int (x : ℚ) (n : ℕ) (m : ℤ) (h : x ≤ m) : pyround x n ≤ m := by
  unfold pyround
  rw [div_le_iff (by positivity : (0:ℚ) < 10 ^ n)]
  have h1 : x * 10 ^ n ≤ ((m * 10 ^ n : ℤ) : ℚ) := by
    push_cast
    exact mul_le_mul_of_nonneg_right h (by positivity)
  have h2 := round_half_even_le _ _ h1
  have h3 : (round_half_even (x * 10 ^ n) : ℚ) ≤ ((m * 10 ^ n : ℤ) : ℚ) := by exact_mod_cast h2
  calc (round_half_even (x * 10 ^ n) : ℚ) ≤ ((m * 10 ^ n : ℤ) : ℚ) := h3
    _ = (m : ℚ) * 10 ^ n := by push_cast; ring

lemma pyround_intCast_div_pow (j : ℤ) (n : ℕ) :
    pyround ((j : ℚ) / 10 ^ n) n = (j : ℚ) / 10 ^ n := by
  unfold pyround
  rw [div_mul_cancel₀ _ (by positivity : (10:ℚ) ^ n ≠ 0), round_half_even_intCast]

lemma pyround_tenth (q : ℚ) (h : Tenth q) : pyround q 2 = q := by
  obtain ⟨j, rfl⟩ := h
  have h1 : (j : ℚ) / 10 = ((j * 10 : ℤ) : ℚ) / 10 ^ 2 := by push_cast; ring
  rw [h1, pyround_intCast_div_pow]

lemma tenth_add {a b : ℚ} (ha : Tenth a) (hb : Tenth b) : Tenth (a + b) := by
  obtain ⟨i, rfl⟩ := ha
  obtain ⟨j, rfl⟩ := hb
  exact ⟨i + j, by push_cast; ring⟩

lemma tenth_min {a b : ℚ} (ha : Tenth a) (hb : Tenth b) : Tenth (min a b) := by
  rcases min_choice a b with h | h <;> rw [h] <;> assumption

lemma tenth_sub {a b : ℚ} (ha : Tenth a) (hb : Tenth b) : Tenth (a - b) := by
  obtain ⟨i, rfl⟩ := ha
  obtain ⟨j, rfl⟩ := hb
  exact ⟨i - j, by push_cast; ring⟩

lemma tenth_two : Tenth 2 := ⟨20, by norm_num⟩

lemma tenth_zero : Tenth 0 := ⟨0, by norm_num⟩

lemma catalog_ids_nodup : (get_all_questions.map Question.id).Nodup := by decide

lemma catalog_weights_nonneg : ∀ q ∈ get_all_questions, 0 ≤ q.weight := by decide

lemma catalog_option_values_nonneg :
    ∀ q ∈ get_all_questions, ∀ p ∈ q.options, 0 ≤ p.2 := by decide

lemma catalog_radio_le_max :
    ∀ q ∈ get_all_questions, q.qtype = QType.radio → ∀ p ∈ q.options, p.2 ≤ question_max q := by
  decide

lemma catalog_checkbox_no_na :
    ∀ q ∈ get_all_questions, q.qtype = QType.checkbox →
      q.options.all (fun p => !not_applicable_in p.1) = true := by decide

lemma catalog_question_max_nonneg : ∀ q ∈ get_all_questions, 0 ≤ question_max q := by decide

lemma synergy_map_recipients_nodup : ∀ pr ∈ sdg_synergy_map, pr.2.Nodup := by decide

lemma alist_find_mem {α β : Type} [DecidableEq α] :
    ∀ (l : List (α × β)) (k : α) (v : β), alist_find l k = some v → (k, v) ∈ l := by
  intro l
  induction l with
  | nil => intro k v h; simp [alist_find] at h
  | cons p rest ih =>
    intro k v h
    by_cases hk : p.1 = k
    · simp only [alist_find, hk, if_pos] at h
      cases h
      subst hk
      exact Prod.mk.eta ▸ List.mem_cons_self p rest
    · simp only [alist_find, hk, if_neg, not_false_iff] at h
      exact List.mem_cons_of_mem _ (ih k v h)

lemma bonus_contribution_cases (x : ℚ) :
    bonus_contribution x = 0 ∨ bonus_contribution x = 5 / 10 ∨
      bonus_contribution x = 7 / 10 ∨ bonus_contribution x = 1 := by
  unfold bonus_contribution
  split_ifs <;> norm_num

lemma bonus_contribution_nonneg (x : ℚ) : 0 ≤ bonus_contribution x := by
  rcases bonus_contribution_cases x with h | h | h | h <;> rw [h] <;> norm_num

lemma bonus_contribution_tenth (x : ℚ) : Tenth (bonus_contribution x) := by
  rcases bonus_contribution_cases x with h | h | h | h <;> rw [h]
  · exact tenth_zero
  · exact ⟨5, by norm_num⟩
  · exact ⟨7, by norm_num⟩
  · exact ⟨10, by norm_num⟩

lemma min_two_add {S c : ℚ} (hc : 0 ≤ c) : min 2 (min 2 S + c) = min 2 (S + c) := by
  rcases le_total 2 S with h | h
  · rw [min_eq_left h, min_eq_left (by linarith), min_eq_left (by linarith)]
  · rw [min_eq_right h]

lemma apply_bonus_eq (v : ℚ) (hv0 : 0 ≤ v) (hvt : Tenth v) :
    ∀ (recipients : List ℕ), recipients.Nodup →
      ∀ (st : ℕ → ℚ), (∀ x, Tenth (st x) ∧ st x ≤ 2) →
        ∀ r, apply_bonus v st recipients r =
          min 2 (st r + if r ∈ recipients then v else 0) := by
  intro recipients
  induction recipients with
  | nil =>
    intro _ st hst r
    have h2 := (hst r).2
    simp [apply_bonus, min_eq_right h2]
  | cons r0 rest ih =>
    intro hnd st hst r
    obtain ⟨hr0, hndr⟩ := List.nodup_cons.mp hnd
    set st1 : ℕ → ℚ :=
      if st r0 < 2 then
        fun x => if x = r0 then pyround (st r0 + min v (2 - st r0)) 2 else st x
      else st with hst1def
    have key : ∀ x, st1 x = if x = r0 then min 2 (st r0 + v) else st x := by
      intro x
      by_cases hlt : st r0 < 2
      · rw [hst1def, if_pos hlt]
        by_cases hx : x = r0
        · rw [if_pos hx, if_pos hx]
          have harg : st r0 + min v (2 - st r0) = min 2 (st r0 + v) := by
            have h1 : st r0 + min v (2 - st r0) =
                min (st r0 + v) (st r0 + (2 - st r0)) := (min_add_add_left _ _ _).symm
            rw [h1]
            have h2 : st r0 + (2 - st r0) = 2 := by ring
            rw [h2, min_comm]
          rw [harg]
          exact pyround_tenth _ (tenth_min tenth_two (tenth_add (hst r0).1 hvt))
        · rw [if_neg hx, if_neg hx]
      · rw [hst1def, if_neg hlt]
        have heq : st r0 = 2 := le_antisymm (hst r0).2 (not_lt.mp hlt)
        by_cases hx : x = r0
        · rw [if_pos hx, hx, heq]
          rw [min_eq_left (by linarith)]
        · rw [if_neg hx]
    have hinv : ∀ x, Tenth (st1 x) ∧ st1 x ≤ 2 := by
      intro x
      rw [key x]
      by_cases hx : x = r0
      · rw [if_pos hx]
        exact ⟨tenth_min tenth_two (tenth_add (hst r0).1 hvt), min_le_left _ _⟩
      · rw [if_neg hx]
        exact hst x
    have hfold : apply_bonus v st (r0 :: rest) r = apply_bonus v st1 rest r := by
      rw [hst1def]
      rfl
    rw [hfold, ih hndr st1 hinv r]
    by_cases hx : r = r0
    · subst hx
      rw [key r, if_pos rfl, if_neg hr0, if_pos (List.mem_cons_self r rest)]
      simpa using @min_two_add (st r + v) 0 (le_refl 0)
    · rw [key r, if_neg hx]
      simp only [List.mem_cons, hx, false_or]

lemma synergy_raw_total_cons (ds : ℕ → ℚ) (s : ℕ) (rest : List ℕ) (r : ℕ) :
    synergy_raw_total ds (s :: rest) r =
      (if r ∈ synergy_recipients s then bonus_contribution (ds s) else 0) +
        synergy_raw_total ds rest r := by
  simp [synergy_raw_total]

lemma synergy_raw_total_nonneg (ds : ℕ → ℚ) (sources : List ℕ) (r : ℕ) :
    0 ≤ synergy_raw_total ds sources r := by
  apply List.sum_nonneg
  intro x hx
  obtain ⟨s, _, rfl⟩ := List.mem_map.mp hx
  split_ifs
  · exact bonus_contribution_nonneg _
  · exact le_refl 0

lemma synergy_raw_total_tenth (ds : ℕ → ℚ) (sources : List ℕ) (r : ℕ) :
    Tenth (synergy_raw_total ds sources r) := by
  induction sources with
  | nil => exact tenth_zero
  | cons s rest ih =>
    rw [synergy_raw_total_cons]
    apply tenth_add _ ih
    split_ifs
    · exact bonus_contribution_tenth _
    · exact tenth_zero

lemma bonus_fold_closed (ds : ℕ → ℚ) :
    ∀ (sources : List ℕ) (S : ℕ → ℚ), (∀ x, 0 ≤ S x ∧ Tenth (S x)) →
      ∀ (st : ℕ → ℚ), (∀ x, st x = min 2 (S x)) →
        ∀ r, (sources.foldl (bonus_step ds) st) r =
          min 2 (S r + synergy_raw_total ds sources r) := by
  intro sources
  induction sources with
  | nil =>
    intro S hS st hst r
    simp [synergy_raw_total, hst r]
  | cons s rest ih =>
    intro S hS st hst r
    have hstep : ∀ x, (bonus_step ds st s) x =
        min 2 (S x + if x ∈ synergy_recipients s then bonus_contribution (ds s) else 0) := by
      intro x
      cases hfind : alist_find sdg_synergy_map s with
      | none =>
        have hrec : synergy_recipients s = [] := by
          unfold synergy_recipients
          rw [hfind]
          rfl
        simp only [bonus_step, hfind]
        simp [hrec, hst x]
      | some recipients =>
        have hrec : synergy_recipients s = recipients := by
          unfold synergy_recipients
          rw [hfind]
          rfl
        simp only [bonus_step, hfind]
        by_cases hpos : 0 < bonus_contribution (ds s)
        · rw [if_pos hpos]
          have hnd : recipients.Nodup :=
            synergy_map_recipients_nodup _ (alist_find_mem _ _ _ hfind)
          have hstinv : ∀ x, Tenth (st x) ∧ st x ≤ 2 := by
            intro x
            rw [hst x]
            exact ⟨tenth_min tenth_two (hS x).2, min_le_left _ _⟩
          rw [apply_bonus_eq _ (bonus_contribution_nonneg _) (bonus_contribution_tenth _)
            recipients hnd st hstinv x]
          rw [hst x, hrec]
          split_ifs with hmem
          · exact min_two_add (bonus_contribution_nonneg _)
          · simpa using @min_two_add (S x) 0 (le_refl 0)
        · rw [if_neg hpos]
          have hz : bonus_contribution (ds s) = 0 :=
            le_antisymm (not_lt.mp hpos) (bonus_contribution_nonneg _)
          rw [hst x, hrec, hz]
          simp
    have hfold : (List.foldl (bonus_step ds) st (s :: rest)) r =
        (List.foldl (bonus_step ds) (bonus_step ds st s) rest) r := rfl
    rw [hfold]
    have hS' : ∀ x, 0 ≤ S x + (if x ∈ synergy_recipients s then bonus_contribution (ds s) else 0) ∧
        Tenth (S x + (if x ∈ synergy_recipients s then bonus_contribution (ds s) else 0)) := by
      intro x
      constructor
      · apply add_nonneg (hS x).1
        split_ifs
        · exact bonus_contribution_nonneg _
        · exact le_refl 0
      · apply tenth_add (hS x).2
        split_ifs
        · exact bonus_contribution_tenth _
        · exact tenth_zero
    rw [ih _ hS' _ hstep r, synergy_raw_total_cons]
    ring_nf

lemma compute_bonus_eq (ds : ℕ → ℚ) (sources : List ℕ) (r : ℕ) :
    compute_bonus_points ds sources r = min 2 (synergy_raw_total ds sources r) := by
  unfold compute_bonus_points
  have h := bonus_fold_closed ds sources (fun _ => 0)
    (fun x => ⟨le_refl 0, tenth_zero⟩) (fun _ => 0)
    (fun x => by norm_num) r
  simpa using h

lemma compute_bonus_nonneg (ds : ℕ → ℚ) (sources : List ℕ) (r : ℕ) :
    0 ≤ compute_bonus_points ds sources r := by
  rw [compute_bonus_eq]
  exact le_min (by norm_num) (synergy_raw_total_nonneg ds sources r)

lemma compute_bonus_le_two (ds : ℕ → ℚ) (sources : List ℕ) (r : ℕ) :
    compute_bonus_points ds sources r ≤ 2 := by
  rw [compute_bonus_eq]
  exact min_le_left _ _

lemma option_value_nonneg (M : List (String × ℚ)) (h : ∀ p ∈ M, 0 ≤ p.2) (x : String) :
    0 ≤ option_value M x := by
  unfold option_value
  cases hfind : M.find? (fun p => p.1 == x) with
  | none => exact le_refl 0
  | some pr => exact h pr (List.mem_of_find?_eq_some hfind)

lemma option_value_eraseP {x y : String} (hxy : y ≠ x) :
    ∀ (M : List (String × ℚ)),
      option_value (M.eraseP (fun p => p.1 == x)) y = option_value M y := by
  intro M
  induction M with
  | nil => rfl
  | cons m rest ih =>
    by_cases hm : (m.1 == x) = true
    · have hmy : ¬ (m.1 == y) = true := by
        intro hcon
        exact hxy ((eq_of_beq hcon).symm.trans (eq_of_beq hm))
      simp only [List.eraseP_cons, hm, cond_true]
      unfold option_value
      have hmy' : (m.1 == y) = false := by simpa using hmy
      simp only [List.find?, hmy']
    · have hm' : (m.1 == x) = false := by simpa using hm
      simp only [List.eraseP_cons, hm', cond_false]
      by_cases hmy : (m.1 == y) = true
      · unfold option_value
        simp only [List.find?_cons_of_pos, hmy]
      · unfold option_value
        have hmy' : (m.1 == y) = false := by simpa using hmy
        simp only [List.find?, hmy']
        exact ih

lemma sum_eraseP_add {x : String} :
    ∀ (M : List (String × ℚ)) (pr : String × ℚ),
      M.find? (fun p => p.1 == x) = some pr →
      pr.2 + ((M.eraseP (fun p => p.1 == x)).map Prod.snd).sum = (M.map Prod.snd).sum := by
  intro M
  induction M with
  | nil => intro pr h; simp at h
  | cons m rest ih =>
    intro pr h
    by_cases hm : (m.1 == x) = true
    · simp only [List.find?_cons_of_pos, hm] at h
      cases h
      simp only [List.eraseP_cons, hm, cond_true]
      simp
    · have hm' : (m.1 == x) = false := by simpa using hm
      simp only [List.find?, hm'] at h
      simp only [List.eraseP_cons, hm', cond_false]
      have := ih pr h
      simp only [List.map_cons, List.sum_cons]
      linarith

lemma sum_lookup_le :
    ∀ (l : List String), l.Nodup →
      ∀ (M : List (String × ℚ)), (∀ p ∈ M, 0 ≤ p.2) →
        (l.map (option_value M)).sum ≤ (M.map Prod.snd).sum := by
  intro l
  induction l with
  | nil =>
    intro _ M hM
    simp
    exact List.sum_nonneg (by
      intro v hv
      obtain ⟨p, hp, rfl⟩ := List.mem_map.mp hv
      exact hM p hp)
  | cons x rest ih =>
    intro hnd M hM
    obtain ⟨hx, hndr⟩ := List.nodup_cons.mp hnd
    simp only [List.map_cons, List.sum_cons]
    cases hfind : M.find? (fun p => p.1 == x) with
    | none =>
      have h0 : option_value M x = 0 := by
        unfold option_value
        rw [hfind]
      rw [h0, zero_add]
      exact ih hndr M hM
    | some pr =>
      have hval : option_value M x = pr.2 := by
        unfold option_value
        rw [hfind]
      set M' := M.eraseP (fun p => p.1 == x) with hM'
      have hmap : rest.map (option_value M) = rest.map (option_value M') := by
        apply List.map_congr_left
        intro y hy
        have hyx : y ≠ x := fun hcon => hx (hcon ▸ hy)
        exact (option_value_eraseP hyx M).symm
      have hM'v : ∀ p ∈ M', 0 ≤ p.2 := by
        intro p hp
        exact hM p ((List.eraseP_sublist M).mem hp)
      have hsum := sum_eraseP_add M pr hfind
      have hrec := ih hndr M' hM'v
      rw [hval, hmap]
      linarith

lemma option_value_cons_of_eq (pr : String × ℚ) (M : List (String × ℚ)) (x : String)
    (h : (pr.1 == x) = true) : option_value (pr :: M) x = pr.2 := by
  unfold option_value
  simp only [List.find?, h]

lemma option_value_cons_of_ne (pr : String × ℚ) (M : List (String × ℚ)) (x : String)
    (h : (pr.1 == x) = false) : option_value (pr :: M) x = option_value M x := by
  unfold option_value
  simp only [List.find?, h]

lemma sdg_maxes_vals_nonneg (sdg : ℕ) : ∀ pr ∈ sdg_question_maxes sdg, 0 ≤ pr.2 := by
  intro pr hpr
  obtain ⟨q, hq, rfl⟩ := List.mem_map.mp hpr
  have hq' : q ∈ get_all_questions := List.mem_of_mem_filter hq
  exact mul_nonneg (catalog_question_max_nonneg q hq') (catalog_weights_nonneg q hq')

lemma option_value_filter_map_not_mem (qs : List Question) (sdg : ℕ) (x : String)
    (hx : ∀ q ∈ qs, q.id ≠ x) :
    option_value ((qs.filter (fun qq => qq.sdg_id == sdg)).map
      (fun qq => (qq.id, question_max qq * qq.weight))) x = 0 := by
  unfold option_value
  have hnone : ((qs.filter (fun qq => qq.sdg_id == sdg)).map
      (fun qq => (qq.id, question_max qq * qq.weight))).find? (fun p => p.1 == x) = none := by
    rw [List.find?_eq_none]
    intro p hp
    obtain ⟨q, hq, rfl⟩ := List.mem_map.mp hp
    have hq' : q ∈ qs := List.mem_of_mem_filter hq
    simpa using hx q hq'
  rw [hnone]

lemma maxes_lookup_gen :
    ∀ (qs : List Question), (qs.map Question.id).Nodup →
      ∀ (x : String) (q : Question), qs.find? (fun qq => qq.id == x) = some q →
        ∀ sdg, option_value ((qs.filter (fun qq => qq.sdg_id == sdg)).map
            (fun qq => (qq.id, question_max qq * qq.weight))) x
          = if q.sdg_id = sdg then question_max q * q.weight else 0 := by
  intro qs
  induction qs with
  | nil => intro _ x q hfind; simp at hfind
  | cons q0 rest ih =>
    intro hnd x q hfind sdg
    simp only [List.map_cons] at hnd
    obtain ⟨hq0, hndr⟩ := List.nodup_cons.mp hnd
    by_cases hx : (q0.id == x) = true
    · simp only [List.find?, hx] at hfind
      obtain rfl : q0 = q := Option.some.inj hfind
      by_cases hs : (q0.sdg_id == sdg) = true
      · simp only [List.filter, hs, List.map_cons]
        rw [option_value_cons_of_eq _ _ _ hx]
        rw [if_pos (eq_of_beq hs)]
      · have hs' : (q0.sdg_id == sdg) = false := by simpa using hs
        simp only [List.filter, hs']
        have hxid : q0.id = x := eq_of_beq hx
        rw [option_value_filter_map_not_mem rest sdg x (by
          intro qq hqq hcon
          apply hq0
          rw [hxid, ← hcon]
          exact List.mem_map_of_mem Question.id hqq)]
        rw [if_neg (fun hcon => by simp [hcon] at hs)]
    · have hx' : (q0.id == x) = false := by simpa using hx
      simp only [List.find?, hx'] at hfind
      by_cases hs : (q0.sdg_id == sdg) = true
      · simp only [List.filter, hs, List.map_cons]
        rw [option_value_cons_of_ne _ _ _ (by simpa using hx')]
        exact ih hndr x q hfind sdg
      · have hs' : (q0.sdg_id == sdg) = false := by simpa using hs
        simp only [List.filter, hs']
        exact ih hndr x q hfind sdg

lemma tiered_le_five_29 (n : ℕ) : calculate_tiered_score n q29_tiers ≤ 5 := by
  simp only [q29_tiers, calculate_tiered_score]
  split_ifs <;> norm_num

lemma tiered_le_five_30 (n : ℕ) : calculate_tiered_score n q30_tiers ≤ 5 := by
  simp only [q30_tiers, calculate_tiered_score]
  split_ifs <;> norm_num

lemma tiered_le_five_31 (n : ℕ) : calculate_tiered_score n q31_tiers ≤ 5 := by
  simp only [q31_tiers, calculate_tiered_score]
  split_ifs <;> norm_num

lemma tiered_nonneg_29 (n : ℕ) : 0 ≤ calculate_tiered_score n q29_tiers := by
  simp only [q29_tiers, calculate_tiered_score]
  split_ifs <;> norm_num

lemma tiered_nonneg_30 (n : ℕ) : 0 ≤ calculate_tiered_score n q30_tiers := by
  simp only [q30_tiers, calculate_tiered_score]
  split_ifs <;> norm_num

lemma tiered_nonneg_31 (n : ℕ) : 0 ≤ calculate_tiered_score n q31_tiers := by
  simp only [q31_tiers, calculate_tiered_score]
  split_ifs <;> norm_num

lemma question_max_tiered (q : Question) (ht : q.qtype = QType.checkbox)
    (hc : (["q29", "q30", "q31"].contains q.id) = true) : question_max q = 5 := by
  simp only [question_max, ht]
  rw [if_pos hc]

lemma checkbox_score_nonneg (q : Question) (hq : q ∈ get_all_questions) (l : List String) :
    0 ≤ checkbox_list_score q l := by
  unfold checkbox_list_score
  split_ifs
  · exact tiered_nonneg_29 _
  · exact tiered_nonneg_30 _
  · exact tiered_nonneg_31 _
  · apply List.sum_nonneg
    intro v hv
    obtain ⟨s, _, rfl⟩ := List.mem_map.mp hv
    exact option_value_nonneg q.options (catalog_option_values_nonneg q hq) s

lemma checkbox_score_le (q : Question) (hq : q ∈ get_all_questions)
    (ht : q.qtype = QType.checkbox) (l : List String) (hl : l.Nodup) :
    checkbox_list_score q l ≤ question_max q := by
  unfold checkbox_list_score
  by_cases h29 : (q.id == "q29") = true
  · rw [if_pos h29, question_max_tiered q ht (by rw [eq_of_beq h29]; rfl)]
    exact tiered_le_five_29 _
  · rw [if_neg (by simpa using h29)]
    by_cases h30 : (q.id == "q30") = true
    · rw [if_pos h30, question_max_tiered q ht (by rw [eq_of_beq h30]; rfl)]
      exact tiered_le_five_30 _
    · rw [if_neg (by simpa using h30)]
      by_cases h31 : (q.id == "q31") = true
      · rw [if_pos h31, question_max_tiered q ht (by rw [eq_of_beq h31]; rfl)]
        exact tiered_le_five_31 _
      · rw [if_neg (by simpa using h31)]
        have hne29 : q.id ≠ "q29" := fun hcon => by simp [hcon] at h29
        have hne30 : q.id ≠ "q30" := fun hcon => by simp [hcon] at h30
        have hne31 : q.id ≠ "q31" := fun hcon => by simp [hcon] at h31
        have hna := catalog_checkbox_no_na q hq ht
        have hfilter : q.options.filter (fun p => !not_applicable_in p.1) = q.options := by
          rw [List.filter_eq_self]
          intro p hp
          exact List.all_eq_true.mp hna p hp
        have hqm : question_max q = (q.options.map Prod.snd).sum := by
          simp only [question_max, ht, hfilter]
          rw [if_neg (by simp [hne29, hne30, hne31])]
        rw [hqm]
        exact sum_lookup_le l hl q.options (catalog_option_values_nonneg q hq)

lemma process_response_bounds (p : String × Answer) (hnd : p.2.nodupList)
    (acc acc1 : ℕ → ℚ) (h : process_response acc p = .ok acc1) (sdg : ℕ) :
    acc sdg ≤ acc1 sdg ∧
      acc1 sdg ≤ acc sdg + option_value (sdg_question_maxes sdg) p.1 := by
  have hval_nonneg : 0 ≤ option_value (sdg_question_maxes sdg) p.1 :=
    option_value_nonneg _ (sdg_maxes_vals_nonneg sdg) _
  rcases hfind : get_all_questions.find? (fun q => q.id == p.1) with _ | q
  · simp only [process_response, hfind] at h
    injection h with h
    subst h
    exact ⟨le_refl _, by linarith⟩
  · have hq : q ∈ get_all_questions := List.mem_of_find?_eq_some hfind
    have hw : 0 ≤ q.weight := catalog_weights_nonneg q hq
    have hmax : option_value (sdg_question_maxes sdg) p.1 =
        if q.sdg_id = sdg then question_max q * q.weight else 0 :=
      maxes_lookup_gen get_all_questions catalog_ids_nodup p.1 q hfind sdg
    have hmaxval : 0 ≤ question_max q * q.weight :=
      mul_nonneg (catalog_question_max_nonneg q hq) hw
    simp only [process_response, hfind] at h
    by_cases htr : (!p.2.truthy) = true
    · rw [if_pos htr] at h
      injection h with h
      subst h
      exact ⟨le_refl _, by linarith⟩
    · rw [if_neg htr] at h
      rcases hqt : q.qtype with _ | _
      · -- radio
        rcases hans : p.2 with s | l
        · simp only [hqt, hans] at h
          by_cases hfound : (q.options.find? (fun o => o.1 == s)).isSome = true
          · rw [if_pos hfound] at h
            injection h with h
            subst h
            obtain ⟨pr, hpr⟩ := Option.isSome_iff_exists.mp hfound
            have hprmem : pr ∈ q.options := List.mem_of_find?_eq_some hpr
            have hprval : option_value q.options s = pr.2 := by
              unfold option_value
              rw [hpr]
            have hle : option_value q.options s ≤ question_max q := by
              rw [hprval]
              exact catalog_radio_le_max q hq hqt pr hprmem
            have hge : 0 ≤ option_value q.options s :=
              option_value_nonneg _ (catalog_option_values_nonneg q hq) _
            by_cases hsd : sdg = q.sdg_id
            · simp only [if_pos hsd]
              rw [hmax, if_pos (hsd.symm)]
              constructor
              · have := mul_nonneg hge hw
                linarith
              · have := mul_le_mul_of_nonneg_right hle hw
                linarith
            · simp only [if_neg hsd]
              exact ⟨le_refl _, by linarith⟩
          · rw [if_neg hfound] at h
            injection h with h
            subst h
            exact ⟨le_refl _, by linarith⟩
        · simp only [hqt, hans] at h
          exact absurd h (by simp)
      · -- checkbox
        rcases hans : p.2 with s | l
        · simp only [hqt, hans] at h
          injection h with h
          subst h
          exact ⟨le_refl _, by linarith⟩
        · simp only [hqt, hans] at h
          injection h with h
          subst h
          have hlnd : l.Nodup := by
            rw [hans] at hnd
            exact hnd
          have hscore_le : checkbox_list_score q l ≤ question_max q :=
            checkbox_score_le q hq hqt l hlnd
          have hscore_ge : 0 ≤ checkbox_list_score q l := checkbox_score_nonneg q hq l
          by_cases hsd : sdg = q.sdg_id
          · simp only [if_pos hsd]
            rw [hmax, if_pos (hsd.symm)]
            constructor
            · have := mul_nonneg hscore_ge hw
              linarith
            · have := mul_le_mul_of_nonneg_right hscore_le hw
              linarith
          · simp only [if_neg hsd]
            exact ⟨le_refl _, by linarith⟩

lemma raw_fold_bounds :
    ∀ (responses : List (String × Answer)), (∀ p ∈ responses, p.2.nodupList) →
      ∀ (acc raw : ℕ → ℚ), List.foldlM process_response acc responses = .ok raw →
        ∀ sdg, acc sdg ≤ raw sdg ∧
          raw sdg ≤ acc sdg +
            (responses.map (fun p => option_value (sdg_question_maxes sdg) p.1)).sum := by
  intro responses
  induction responses with
  | nil =>
    intro _ acc raw h sdg
    simp only [List.foldlM_nil] at h
    injection h with h
    subst h
    simp
  | cons p rest ih =>
    intro hnd acc raw h sdg
    simp only [List.foldlM_cons] at h
    cases hstep : process_response acc p with
    | error e =>
      rw [hstep] at h
      exact absurd h (by simp [Bind.bind, Except.bind])
    | ok acc1 =>
      rw [hstep] at h
      simp only [Bind.bind, Except.bind] at h
      have hstepb := process_response_bounds p (hnd p (List.mem_cons_self p rest)) acc acc1 hstep sdg
      have hrest := ih (fun x hx => hnd x (List.mem_cons_of_mem p hx)) acc1 raw h sdg
      simp only [List.map_cons, List.sum_cons]
      exact ⟨le_trans hstepb.1 hrest.1, by linarith [hstepb.2, hrest.2]⟩

lemma calc_max_fold :
    ∀ (qs : List Question) (acc : ℕ → ℚ) (sdg : ℕ),
      (qs.foldl (fun acc q => fun s => if s = q.sdg_id then acc s + question_max q * q.weight
        else acc s) acc) sdg
        = acc sdg + ((qs.filter (fun q => q.sdg_id == sdg)).map
            (fun q => question_max q * q.weight)).sum := by
  intro qs
  induction qs with
  | nil => intro acc sdg; simp
  | cons q0 rest ih =>
    intro acc sdg
    rw [List.foldl_cons, ih]
    by_cases hs : (q0.sdg_id == sdg) = true
    · have hsd : sdg = q0.sdg_id := (eq_of_beq hs).symm
      simp only [List.filter, hs, List.map_cons, List.sum_cons, if_pos hsd]
      ring
    · have hs' : (q0.sdg_id == sdg) = false := by simpa using hs
      have hsd : ¬ sdg = q0.sdg_id := fun hcon => by simp [hcon] at hs
      simp only [List.filter, hs', if_neg hsd]

lemma calc_max_eq (sdg : ℕ) :
    calculate_max_scores sdg = ((sdg_question_maxes sdg).map Prod.snd).sum := by
  unfold calculate_max_scores
  rw [calc_max_fold]
  simp only [sdg_question_maxes, List.map_map, zero_add]
  congr 1

lemma raw_scores_bounds (responses : List (String × Answer))
    (hk : (responses.map Prod.fst).Nodup) (hl : ∀ p ∈ responses, p.2.nodupList)
    (raw : ℕ → ℚ) (h : calculate_raw_scores responses = .ok raw) (sdg : ℕ) :
    0 ≤ raw sdg ∧ raw sdg ≤ calculate_max_scores sdg := by
  have hb := raw_fold_bounds responses hl (fun _ => 0) raw h sdg
  constructor
  · simpa using hb.1
  · have hmaps : responses.map (fun p => option_value (sdg_question_maxes sdg) p.1)
        = (responses.map Prod.fst).map (option_value (sdg_question_maxes sdg)) := by
      rw [List.map_map]
      rfl
    have hsum := sum_lookup_le (responses.map Prod.fst) hk (sdg_question_maxes sdg)
      (sdg_maxes_vals_nonneg sdg)
    rw [hmaps] at hb
    rw [calc_max_eq]
    have := hb.2
    simpa using le_trans this (by linarith [hsum])

lemma direct_score_bounds (raw : ℕ → ℚ) (sdg : ℕ) (h0 : 0 ≤ raw sdg)
    (hle : raw sdg ≤ calculate_max_scores sdg) :
    0 ≤ direct_score raw sdg ∧ direct_score raw sdg ≤ 10 := by
  unfold direct_score
  split_ifs with hpos
  · have hx0 : 0 ≤ raw sdg / calculate_max_scores sdg * 10 := by positivity
    have hx10 : raw sdg / calculate_max_scores sdg * 10 ≤ 10 := by
      have h1 : raw sdg / calculate_max_scores sdg ≤ 1 := (div_le_one hpos).mpr hle
      linarith
    refine ⟨pyround_nonneg _ _ hx0, ?_⟩
    have := pyround_le_int (raw sdg / calculate_max_scores sdg * 10) 2 10
      (by exact_mod_cast hx10)
    exact_mod_cast this
  · norm_num

lemma sdg_ids_map_not_empty (f : ℕ → SDGRec) : (sdg_ids.map f).isEmpty = false := rfl

lemma calc_error_msg_ne (e t : String) (ht : t.data.head? ≠ some 'C') :
    ("Calculation error: " ++ e) ≠ t := by
  intro hcon
  apply ht
  rw [← hcon]
  rfl

lemma calc_results_invalid (responses : List (String × Answer)) (now : String)
    (hv : (validate_responses responses).1 = false) :
    calculate_assessment_results responses now =
      .err "Invalid responses" (some (validate_responses responses).2) := by
  unfold calculate_assessment_results
  rcases hval : validate_responses responses with ⟨bv, errs⟩
  rw [hval] at hv
  cases bv
  · rfl
  · exact absurd hv (by simp)

lemma calc_results_calc_error (responses : List (String × Answer)) (now : String)
    (hv : (validate_responses responses).1 = true) (e : String)
    (hraw : calculate_raw_scores responses = .error e) :
    calculate_assessment_results responses now =
      .err ("Calculation error: " ++ e) none := by
  unfold calculate_assessment_results
  rcases hval : validate_responses responses with ⟨bv, errs⟩
  rw [hval] at hv
  cases bv
  · exact absurd hv (by simp)
  · rw [hraw]

lemma calc_results_ok_eq (responses : List (String × Answer)) (now : String)
    (hv : (validate_responses responses).1 = true) (raw : ℕ → ℚ)
    (hraw : calculate_raw_scores responses = .ok raw) :
    calculate_assessment_results responses now = .ok (make_bundle
      (sdg_ids.map (make_record (direct_score raw)
        (compute_bonus_points (direct_score raw) sdg_ids))) now) := by
  unfold calculate_assessment_results
  split
  · rename_i errors heq
    rw [heq] at hv
    exact absurd hv (by simp)
  · split
    · rename_i e heq2
      rw [hraw] at heq2
      exact absurd heq2 (by simp)
    · rename_i raw2 heq2
      rw [hraw] at heq2
      obtain rfl : raw = raw2 := Except.ok.inj heq2
      simp only [sdg_ids_map_not_empty, Bool.false_eq_true, if_false]

lemma make_bundle_scores_df (rd : List SDGRec) (now : String) :
    (make_bundle rd now).scores_df = rd := by
  simp only [make_bundle]

lemma make_bundle_strengths (rd : List SDGRec) (now : String) :
    (make_bundle rd now).strengths = strengths_of rd := by
  simp only [make_bundle]

lemma make_bundle_weaknesses (rd : List SDGRec) (now : String) :
    (make_bundle rd now).weaknesses = weaknesses_of rd := by
  simp only [make_bundle]

lemma make_bundle_date (rd : List SDGRec) (now : String) :
    (make_bundle rd now).assessment_date = now := by
  simp only [make_bundle]

lemma calc_results_cases (responses : List (String × Answer)) (now : String) :
    (∃ d, calculate_assessment_results responses now = .err "Invalid responses" d) ∨
    (∃ e, calculate_assessment_results responses now =
      .err ("Calculation error: " ++ e) none) ∨
    (∃ b, calculate_assessment_results responses now = .ok b) := by
  cases hv : (validate_responses responses).1 with
  | false => exact Or.inl ⟨_, calc_results_invalid responses now hv⟩
  | true =>
    cases hraw : calculate_raw_scores responses with
    | error e => exact Or.inr (Or.inl ⟨e, calc_results_calc_error responses now hv e hraw⟩)
    | ok raw =>
      exact Or.inr (Or.inr ⟨_, calc_results_ok_eq responses now hv raw hraw⟩)

lemma calc_results_never_noscores (responses : List (String × Answer)) (now : String)
    (d : Option (List String)) :
    calculate_assessment_results responses now ≠
      .err "No scores could be calculated from the provided responses." d := by
  rcases calc_results_cases responses now with ⟨d0, h⟩ | ⟨e, h⟩ | ⟨b, h⟩ <;> rw [h] <;>
    intro hcon
  · injection hcon with h1 h2
    exact absurd h1 (by decide)
  · injection hcon with h1 h2
    exact calc_error_msg_ne e _ (by decide) h1
  · exact AssessResult.noConfusion hcon

lemma sorted_records_perm (records : List SDGRec) :
    List.Perm (sorted_records records) records :=
  List.perm_insertionSort final_desc records

lemma sorted_records_sorted (records : List SDGRec) :
    List.Sorted final_desc (sorted_records records) :=
  List.sorted_insertionSort final_desc records

lemma sorted_records_length (records : List SDGRec) :
    (sorted_records records).length = records.length :=
  (sorted_records_perm records).length_eq

lemma strengths_length (records : List SDGRec) :
    (strengths_of records).length = min 5 records.length := by
  unfold strengths_of
  rw [List.length_take, sorted_records_length]

lemma strengths_sorted (records : List SDGRec) :
    List.Sorted final_desc (strengths_of records) :=
  (sorted_records_sorted records).sublist (List.take_sublist 5 _)

lemma strengths_dominate (records : List SDGRec) :
    ∀ a ∈ strengths_of records, ∀ b ∈ (sorted_records records).drop 5, final_desc a b := by
  have hp := sorted_records_sorted records
  rw [← List.take_append_drop 5 (sorted_records records)] at hp
  exact (List.pairwise_append.mp hp).2.2

lemma strengths_partition (records : List SDGRec) :
    List.Perm (strengths_of records ++ (sorted_records records).drop 5) records := by
  unfold strengths_of
  rw [List.take_append_drop]
  exact sorted_records_perm records

lemma weak_pool_sorted (records : List SDGRec) :
    List.Sorted final_desc (weak_pool records) :=
  (sorted_records_sorted records).filter _

lemma weaknesses_perm (records : List SDGRec) :
    List.Perm (weaknesses_of records)
      ((weak_pool records).drop ((weak_pool records).length - 5)) :=
  List.perm_insertionSort final_asc _

lemma weaknesses_length (records : List SDGRec) : (weaknesses_of records).length ≤ 5 := by
  rw [(weaknesses_perm records).length_eq, List.length_drop]
  omega

lemma weaknesses_sorted (records : List SDGRec) :
    List.Sorted final_asc (weaknesses_of records) :=
  List.sorted_insertionSort final_asc _

lemma weaknesses_lt_six (records : List SDGRec) :
    ∀ w ∈ weaknesses_of records, w.Final_Score < 6 := by
  intro w hw
  have hw2 : w ∈ (weak_pool records).drop ((weak_pool records).length - 5) :=
    (weaknesses_perm records).mem_iff.mp hw
  have hw3 : w ∈ weak_pool records := List.mem_of_mem_drop hw2
  have := List.of_mem_filter hw3
  exact of_decide_eq_true this

lemma weaknesses_lowest (records : List SDGRec) :
    ∀ w ∈ weaknesses_of records,
      ∀ x ∈ (weak_pool records).take ((weak_pool records).length - 5),
        w.Final_Score ≤ x.Final_Score := by
  intro w hw x hx
  have hw2 : w ∈ (weak_pool records).drop ((weak_pool records).length - 5) :=
    (weaknesses_perm records).mem_iff.mp hw
  have hp := weak_pool_sorted records
  rw [← List.take_append_drop ((weak_pool records).length - 5) (weak_pool records)] at hp
  exact (List.pairwise_append.mp hp).2.2 x hx w hw2

lemma make_record_id (ds bs : ℕ → ℚ) (sdg : ℕ) : (make_record ds bs sdg).SDG_ID = sdg := by
  simp only [make_record]

lemma make_record_direct (ds bs : ℕ → ℚ) (sdg : ℕ) :
    (make_record ds bs sdg).Direct_Score = ds sdg := by
  simp only [make_record]

lemma make_record_bonus (ds bs : ℕ → ℚ) (sdg : ℕ) :
    (make_record ds bs sdg).Bonus_Points = bs sdg := by
  simp only [make_record]

lemma make_record_final (ds bs : ℕ → ℚ) (sdg : ℕ) :
    (make_record ds bs sdg).Final_Score = pyround (min 10 (ds sdg + bs sdg)) 1 := by
  simp only [make_record]

lemma find_id_self_gen :
    ∀ (qs : List Question), (qs.map Question.id).Nodup →
      ∀ q ∈ qs, qs.find? (fun qq => qq.id == q.id) = some q := by
  intro qs
  induction qs with
  | nil => intro _ q hq; simp at hq
  | cons q0 rest ih =>
    intro hnd q hq
    simp only [List.map_cons] at hnd
    obtain ⟨h0, hndr⟩ := List.nodup_cons.mp hnd
    rcases List.mem_cons.mp hq with rfl | hqr
    · simp only [List.find?, beq_self_eq_true]
    · have hne : (q0.id == q.id) = false := by
        rw [beq_eq_false_iff_ne]
        intro hcon
        apply h0
        rw [hcon]
        exact List.mem_map_of_mem Question.id hqr
      simp only [List.find?, hne]
      exact ih hndr q hqr

lemma find_id_self (q : Question) (hq : q ∈ get_all_questions) :
    get_all_questions.find? (fun qq => qq.id == q.id) = some q :=
  find_id_self_gen get_all_questions catalog_ids_nodup q hq

/-! ## Claim theorems -/

/-- C2: For every assignment of direct scores, the synergy pass derives each
source SDG's contribution by the fixed thresholds (0.5 on [7,8), 0.7 on
[8,9), 1.0 on [9,∞), 0 below 7) and adds it to each listed recipient; every
recipient's cumulative bonus is clamped so that it never exceeds 2.0 (only
the remainder up to exactly 2.0 is added), the final per-recipient bonus
equals `min 2 (sum of contributions)`, and it is invariant under the
processing order of the source SDGs. -/
theorem claim2_synergy_bonus :
    ∀ (ds : ℕ → ℚ) (sources : List ℕ) (r : ℕ),
      compute_bonus_points ds sources r = min 2 (synergy_raw_total ds sources r) ∧
      (0 ≤ compute_bonus_points ds sources r ∧ compute_bonus_points ds sources r ≤ 2) ∧
      (∀ x : ℚ, (7 ≤ x → x < 8 → bonus_contribution x = 0.5) ∧
        (8 ≤ x → x < 9 → bonus_contribution x = 0.7) ∧
        (9 ≤ x → bonus_contribution x = 1.0) ∧
        (x < 7 → bonus_contribution x = 0)) ∧
      ∀ sources2 : List ℕ, List.Perm sources sources2 →
        compute_bonus_points ds sources r = compute_bonus_points ds sources2 r := by
  intro ds sources r
  refine ⟨compute_bonus_eq ds sources r,
    ⟨compute_bonus_nonneg ds sources r, compute_bonus_le_two ds sources r⟩, ?_, ?_⟩
  · intro x
    refine ⟨?_, ?_, ?_, ?_⟩
    · intro h1 h2
      unfold bonus_contribution
      rw [if_pos ⟨h1, h2⟩]
    · intro h1 h2
      unfold bonus_contribution
      rw [if_neg (fun hc => by linarith [hc.2]), if_pos ⟨h1, h2⟩]
    · intro h1
      unfold bonus_contribution
      rw [if_neg (fun hc => by linarith [hc.2]), if_neg (fun hc => by linarith [hc.2]),
        if_pos h1]
    · intro h1
      unfold bonus_contribution
      rw [if_neg (fun hc => by linarith [hc.1]), if_neg (fun hc => by linarith [hc.1]),
        if_neg (fun hc => by linarith)]
  · intro sources2 hperm
    rw [compute_bonus_eq, compute_bonus_eq]
    congr 1
    unfold synergy_raw_total
    exact (hperm.map _).sum_eq

/-- Witness for C2 at a concrete instance: with every direct score 10, the
bonus a recipient receives is the same for the source orders [7, 13] and
[13, 7], and the contribution of a 9-or-above score is 1.0. -/
theorem claim2_synergy_bonus_witness :
    compute_bonus_points ds_ten [7, 13] 1 = compute_bonus_points ds_ten [13, 7] 1 ∧
    bonus_contribution 9 = 1.0 := by
  have h := claim2_synergy_bonus ds_ten [7, 13] 1
  exact ⟨h.2.2.2 [13, 7] (by decide), (h.2.2.1 9).2.2.1 (by norm_num)⟩

/-- C3: every SDG's theoretical maximum is positive, and the response that
answers each of an SDG's questions with its maximum-scoring option(s) gives
that SDG a raw total equal to the maximum and hence a Direct Score of
exactly 10 (`direct_score` implements round((raw/max)*10, 2) with the
max-greater-than-0 guard). -/
theorem claim3_normalization :
    ∀ sdg ∈ sdg_ids,
      0 < calculate_max_scores sdg ∧
      (calculate_raw_scores (full_marks_response sdg)).isOk = true ∧
      raw_or_zero (calculate_raw_scores (full_marks_response sdg)) sdg
        = calculate_max_scores sdg ∧
      direct_score (raw_or_zero (calculate_raw_scores (full_marks_response sdg))) sdg = 10 := by
  decide

/-- Witness for C3 at SDG 7 (Affordable Energy): full marks give Direct
Score 10. -/
theorem claim3_normalization_witness :
    direct_score (raw_or_zero (calculate_raw_scores (full_marks_response 7))) 7 = 10 :=
  (claim3_normalization 7 (by decide)).2.2.2

/-- Counterexample to C4 as stated: a response set whose only answer is the
literal "not applicable" sentinel contains no answer that is neither
empty-string, empty list, nor the sentinel, yet it passes validation and the
scoring entry point returns a result bundle, not the invalid-input error. -/
theorem claim4_counterexample :
    (∀ p ∈ r_na, p.2 = Answer.str "" ∨ p.2 = Answer.list [] ∨
      p.2 = Answer.str "not applicable") ∧
    r_na ≠ [] ∧
    validate_responses r_na = (true, []) ∧
    (calculate_assessment_results r_na "2024-01-01").isOkB = true := by
  refine ⟨by decide, by decide, by decide, by decide⟩

/-- C4 (amended): the scoring entry point returns the invalid-input error
exactly when the response set is empty or every answer is the empty string
or the empty list; a literal "not applicable" answer is truthy and counts as
answered. -/
theorem claim4_invalid_iff :
    ∀ (responses : List (String × Answer)) (now : String),
      (calculate_assessment_results responses now).invalid_inputB = true ↔
        (responses = [] ∨ ∀ p ∈ responses, p.2 = Answer.str "" ∨ p.2 = Answer.list []) := by
  intro responses now
  constructor
  · intro h
    by_contra hc
    push_neg at hc
    obtain ⟨hne, p, hp, hps, hpl⟩ := hc
    have htr : p.2.truthy = true := by
      cases hans : p.2 with
      | str s =>
        have : s ≠ "" := fun hcon => hps (by rw [hans, hcon])
        simp [Answer.truthy, this]
      | list l =>
        have : l ≠ [] := fun hcon => hpl (by rw [hans, hcon])
        simp [Answer.truthy, this]
    have hv : (validate_responses responses).1 = true := by
      unfold validate_responses
      rw [if_neg (fun hcon => hne (List.isEmpty_iff.mp hcon))]
      rw [if_neg (fun hcon => by
        have := List.all_eq_true.mp hcon p hp
        rw [htr] at this
        simp at this)]
    cases hraw : calculate_raw_scores responses with
    | error e =>
      rw [calc_results_calc_error responses now hv e hraw] at h
      simp only [AssessResult.invalid_inputB] at h
      exact calc_error_msg_ne e _ (by decide) (eq_of_beq h)
    | ok raw =>
      rw [calc_results_ok_eq responses now hv raw hraw] at h
      simp [AssessResult.invalid_inputB] at h
  · intro h
    have hv : (validate_responses responses).1 = false := by
      rcases h with rfl | hall
      · rfl
      · unfold validate_responses
        by_cases hemp : responses.isEmpty
        · rw [if_pos hemp]
        · rw [if_neg hemp, if_pos (List.all_eq_true.mpr (by
            intro p hp
            rcases hall p hp with hs | hl
            · rw [hs]
              rfl
            · rw [hl]
              rfl))]
    rw [calc_results_invalid responses now hv]
    rfl

/-- Witness for C4 (amended): the empty response set yields the
invalid-input error. -/
theorem claim4_invalid_iff_witness :
    (calculate_assessment_results ([] : List (String × Answer)) "2024-01-01").invalid_inputB
      = true :=
  (claim4_invalid_iff [] "2024-01-01").mpr (Or.inl rfl)

/-- Counterexample to C5 as stated: a q29 answer selecting 0 options is
skipped by the falsy-answer check of `calculate_raw_scores`, so SDG 15
receives raw score 0, not the claimed 1. -/
theorem claim5_counterexample :
    calculate_raw_scores [("q29", Answer.list [])] = .ok (fun _ => 0) ∧
    raw_or_zero (calculate_raw_scores [("q29", Answer.list [])]) 15 ≠ 1 := by
  exact ⟨rfl, by decide⟩

/-- C5 (amended): for q29's tier table {(0,1):1,(2,3):2,(4,5):3,(6,7):4,
(8,8):5}, selecting 3 options contributes raw score 2 to SDG 15 and
selecting all 8 contributes 5; selecting 0 options contributes 0, because
the empty list is falsy and is skipped before the tier lookup, although the
tier function itself maps count 0 (and 3, and 8) to 1 (and 2, and 5). -/
theorem claim5_tiered :
    raw_or_zero (calculate_raw_scores [("q29", Answer.list q29_sel3)]) 15 = 2 ∧
    raw_or_zero (calculate_raw_scores [("q29", Answer.list q29_sel8)]) 15 = 5 ∧
    raw_or_zero (calculate_raw_scores [("q29", Answer.list [])]) 15 = 0 ∧
    calculate_tiered_score 0 q29_tiers = 1 ∧
    calculate_tiered_score 3 q29_tiers = 2 ∧
    calculate_tiered_score 8 q29_tiers = 5 := by
  refine ⟨by decide, by decide, by decide, by decide, by decide, by decide⟩

/-- Counterexample to C6 as stated: the same response set scored at two
different invocation times yields bundles that differ (in the
assessment_date field), so repeated invocations are not byte-identical. -/
theorem claim6_counterexample :
    calculate_assessment_results r1 "2024-01-01T00:00:00" ≠
      calculate_assessment_results r1 "2024-01-01T00:00:01" := by
  intro hcon
  have h1 : (calculate_assessment_results r1 "2024-01-01T00:00:00").date? =
      some "2024-01-01T00:00:00" := by decide
  have h2 : (calculate_assessment_results r1 "2024-01-01T00:00:01").date? =
      some "2024-01-01T00:00:01" := by decide
  rw [hcon, h2] at h1
  exact absurd (Option.some.inj h1) (by decide)

/-- C6 (amended): for a fixed response set, two invocations of the scoring
entry point agree on every component of the outcome except the
assessment_date timestamp. -/
theorem claim6_determinism :
    ∀ (responses : List (String × Answer)) (t1 t2 : String),
      strip_date (calculate_assessment_results responses t1) =
        strip_date (calculate_assessment_results responses t2) := by
  intro responses t1 t2
  cases hv : (validate_responses responses).1 with
  | false => rw [calc_results_invalid responses t1 hv, calc_results_invalid responses t2 hv]
  | true =>
    cases hraw : calculate_raw_scores responses with
    | error e =>
      rw [calc_results_calc_error responses t1 hv e hraw,
        calc_results_calc_error responses t2 hv e hraw]
    | ok raw =>
      rw [calc_results_ok_eq responses t1 hv raw hraw,
        calc_results_ok_eq responses t2 hv raw hraw]
      simp only [strip_date, make_bundle]

/-- Counterexample to C7 as stated: the score 0.05 lies in none of the five
bands (it falls in the gap between No Score's 0–0 and Minimal's 0.1–2.99),
so it does not map to exactly one band by inclusive range membership; the
lookup answers "No Score" only through its fallback. -/
theorem claim7_counterexample :
    (∀ l ∈ performance_levels, ¬ level_mem (5 / 100 : ℚ) l) ∧
    get_performance_level (5 / 100 : ℚ) = "No Score" := by
  refine ⟨by decide, by decide⟩

/-- C7 (amended): the five bands are pairwise disjoint, so a score lying in
some band lies in exactly one, and the first-match scan returns that band's
label; a score lying in no band (e.g. in a gap such as (0, 0.1) or outside
[0, 10]) is returned as "No Score" by the scan's fallback, not by
membership. -/
theorem claim7_bands :
    ∀ score : ℚ,
      (∀ l1 ∈ performance_levels, ∀ l2 ∈ performance_levels,
        level_mem score l1 → level_mem score l2 → l1 = l2) ∧
      (∀ l ∈ performance_levels, level_mem score l →
        get_performance_level score = l.level) ∧
      ((∀ l ∈ performance_levels, ¬ level_mem score l) →
        get_performance_level score = "No Score") := by
  intro score
  refine ⟨?_, ?_, ?_⟩
  · intro l1 h1 l2 h2 hm1 hm2
    fin_cases h1 <;> fin_cases h2 <;> simp only [level_mem] at hm1 hm2 <;>
      first
        | rfl
        | (exfalso; linarith [hm1.1, hm1.2, hm2.1, hm2.2])
  · intro l hl hm
    fin_cases hl <;> simp only [level_mem] at hm <;>
      simp only [get_performance_level, performance_levels, levels_scan]
    · rw [if_pos hm]
    · rw [if_neg (fun hc => by linarith [hc.1, hm.2]), if_pos hm]
    · rw [if_neg (fun hc => by linarith [hc.1, hm.2]),
        if_neg (fun hc => by linarith [hc.1, hm.2]), if_pos hm]
    · rw [if_neg (fun hc => by linarith [hc.1, hm.2]),
        if_neg (fun hc => by linarith [hc.1, hm.2]),
        if_neg (fun hc => by linarith [hc.1, hm.2]), if_pos hm]
    · rw [if_neg (fun hc => by linarith [hc.1, hm.2]),
        if_neg (fun hc => by linarith [hc.1, hm.2]),
        if_neg (fun hc => by linarith [hc.1, hm.2]),
        if_neg (fun hc => by linarith [hc.1, hm.2]), if_pos hm]
  · intro hall
    simp only [get_performance_level, performance_levels, levels_scan]
    have h1 : ¬ (9 ≤ score ∧ score ≤ 10) :=
      hall ⟨"Exemplary", 9, 10, "#28a745"⟩ (by decide)
    have h2 : ¬ (6 ≤ score ∧ score ≤ 8.99) :=
      hall ⟨"Advanced", 6, 8.99, "#90ee90"⟩ (by decide)
    have h3 : ¬ (3 ≤ score ∧ score ≤ 5.99) :=
      hall ⟨"Basic", 3, 5.99, "#ffc107"⟩ (by decide)
    have h4 : ¬ (0.1 ≤ score ∧ score ≤ 2.99) :=
      hall ⟨"Minimal", 0.1, 2.99, "#dc3545"⟩ (by decide)
    have h5 : ¬ (0 ≤ score ∧ score ≤ 0) :=
      hall ⟨"No Score", 0, 0, "#F1FAEE"⟩ (by decide)
    rw [if_neg h1, if_neg h2, if_neg h3, if_neg h4, if_neg h5]

/-- Witness for C7 (amended): 9.5 lies in the Exemplary band and the lookup
returns "Exemplary". -/
theorem claim7_bands_witness :
    get_performance_level (19 / 2 : ℚ) = "Exemplary" := by
  have h := (claim7_bands (19 / 2)).2.1 ⟨"Exemplary", 9, 10, "#28a745"⟩ (by decide) (by decide)
  exact h

/-- C1: for every response set (a mapping with duplicate-free multi-select
lists, as the data model defines a response set) that validation accepts and
the entry point scores, every per-SDG record has Direct Score in [0, 10],
synergy Bonus in [0, 2], a final score min(10, direct + bonus) in [0, 10],
and a stored (display-rounded) Final_Score equal to
round(min(10, direct + bonus), 1), also in [0, 10]. -/
theorem claim1_score_bounds :
    ∀ (responses : List (String × Answer)) (now : String),
      WellFormedResponses responses →
      ∀ rec ∈ (calculate_assessment_results responses now).records,
        (0 ≤ rec.Direct_Score ∧ rec.Direct_Score ≤ 10) ∧
        (0 ≤ rec.Bonus_Points ∧ rec.Bonus_Points ≤ 2) ∧
        (0 ≤ min 10 (rec.Direct_Score + rec.Bonus_Points) ∧
          min 10 (rec.Direct_Score + rec.Bonus_Points) ≤ 10) ∧
        rec.Final_Score = pyround (min 10 (rec.Direct_Score + rec.Bonus_Points)) 1 ∧
        (0 ≤ rec.Final_Score ∧ rec.Final_Score ≤ 10) := by
  intro responses now hwf rec hrec
  cases hv : (validate_responses responses).1 with
  | false =>
    rw [calc_results_invalid responses now hv] at hrec
    simp [AssessResult.records] at hrec
  | true =>
    cases hraw : calculate_raw_scores responses with
    | error e =>
      rw [calc_results_calc_error responses now hv e hraw] at hrec
      simp [AssessResult.records] at hrec
    | ok raw =>
      rw [calc_results_ok_eq responses now hv raw hraw] at hrec
      simp only [AssessResult.records, make_bundle_scores_df] at hrec
      obtain ⟨sdg, _, rfl⟩ := List.mem_map.mp hrec
      have hrawb := raw_scores_bounds responses hwf.1 hwf.2 raw hraw sdg
      have hds := direct_score_bounds raw sdg hrawb.1 hrawb.2
      have hbs0 := compute_bonus_nonneg (direct_score raw) sdg_ids sdg
      have hbs2 := compute_bonus_le_two (direct_score raw) sdg_ids sdg
      rw [make_record_direct, make_record_bonus, make_record_final]
      have hmin0 : 0 ≤ min 10 (direct_score raw sdg +
          compute_bonus_points (direct_score raw) sdg_ids sdg) :=
        le_min (by norm_num) (by linarith [hds.1, hbs0])
      have hmin10 : min 10 (direct_score raw sdg +
          compute_bonus_points (direct_score raw) sdg_ids sdg) ≤ 10 := min_le_left _ _
      refine ⟨⟨hds.1, hds.2⟩, ⟨hbs0, hbs2⟩, ⟨hmin0, hmin10⟩, rfl, ?_, ?_⟩
      · exact pyround_nonneg _ _ hmin0
      · have := pyround_le_int (min 10 (direct_score raw sdg +
          compute_bonus_points (direct_score raw) sdg_ids sdg)) 1 10 (by exact_mod_cast hmin10)
        exact_mod_cast this

/-- Witness for C1 at a concrete accepted response set: the first record of
the computed bundle satisfies the bounds. -/
theorem claim1_score_bounds_witness :
    (0 ≤ ((calculate_assessment_results r1 "2024-01-01").records.head!).Direct_Score ∧
      ((calculate_assessment_results r1 "2024-01-01").records.head!).Direct_Score ≤ 10) ∧
    (0 ≤ ((calculate_assessment_results r1 "2024-01-01").records.head!).Bonus_Points ∧
      ((calculate_assessment_results r1 "2024-01-01").records.head!).Bonus_Points ≤ 2) ∧
    (0 ≤ ((calculate_assessment_results r1 "2024-01-01").records.head!).Final_Score ∧
      ((calculate_assessment_results r1 "2024-01-01").records.head!).Final_Score ≤ 10) := by
  have hne : (calculate_assessment_results r1 "2024-01-01").records ≠ [] := by decide
  have h := claim1_score_bounds r1 "2024-01-01" (by decide) _ (List.head!_mem_self hne)
  exact ⟨h.1, h.2.1, h.2.2.2.2⟩

/-- C8: for every per-SDG record set, the strengths list is the top five
records by stored Final_Score in descending order (it dominates the rest of
the descending sort, and together with it is a permutation of the input),
and the weaknesses list holds at most five records, all with Final_Score
below 6, in ascending order, consisting of the lowest-scoring records of the
below-6 pool (every record it omits from that pool scores at least as high). -/
theorem claim8_strengths_weaknesses :
    ∀ records : List SDGRec,
      ((strengths_of records).length = min 5 records.length ∧
        List.Sorted final_desc (strengths_of records) ∧
        (∀ a ∈ strengths_of records, ∀ b ∈ (sorted_records records).drop 5, final_desc a b) ∧
        List.Perm (strengths_of records ++ (sorted_records records).drop 5) records) ∧
      ((weaknesses_of records).length ≤ 5 ∧
        (∀ w ∈ weaknesses_of records, w.Final_Score < 6) ∧
        List.Sorted final_asc (weaknesses_of records) ∧
        List.Perm (weaknesses_of records)
          ((weak_pool records).drop ((weak_pool records).length - 5)) ∧
        (∀ w ∈ weaknesses_of records,
          ∀ x ∈ (weak_pool records).take ((weak_pool records).length - 5),
            w.Final_Score ≤ x.Final_Score)) :=
  fun records =>
    ⟨⟨strengths_length records, strengths_sorted records, strengths_dominate records,
      strengths_partition records⟩,
     ⟨weaknesses_length records, weaknesses_lt_six records, weaknesses_sorted records,
      weaknesses_perm records, weaknesses_lowest records⟩⟩

/-- Witness for C8 at the record set of a concrete computed bundle. -/
theorem claim8_strengths_weaknesses_witness :
    (strengths_of (calculate_assessment_results r1 "2024-01-01").records).length =
      min 5 (calculate_assessment_results r1 "2024-01-01").records.length :=
  ((claim8_strengths_weaknesses (calculate_assessment_results r1 "2024-01-01").records).1).1

/-- C9: the scoring entry point never returns the post-computation
"no scores could be calculated" error, and whenever it returns a bundle the
record list holds exactly one record per SDG id 1–17 (so it is never empty)
and the strengths list holds exactly five records. -/
theorem claim9_seventeen_records :
    ∀ (responses : List (String × Answer)) (now : String),
      ((calculate_assessment_results responses now).isOkB = true →
        (calculate_assessment_results responses now).records.map (fun r => r.SDG_ID)
          = sdg_ids ∧
        (calculate_assessment_results responses now).records ≠ [] ∧
        (calculate_assessment_results responses now).strengthsL.length = 5) ∧
      ∀ d, calculate_assessment_results responses now ≠
        .err "No scores could be calculated from the provided responses." d := by
  intro responses now
  constructor
  · intro hok
    cases hv : (validate_responses responses).1 with
    | false =>
      rw [calc_results_invalid responses now hv] at hok
      simp [AssessResult.isOkB] at hok
    | true =>
      cases hraw : calculate_raw_scores responses with
      | error e =>
        rw [calc_results_calc_error responses now hv e hraw] at hok
        simp [AssessResult.isOkB] at hok
      | ok raw =>
        rw [calc_results_ok_eq responses now hv raw hraw]
        simp only [AssessResult.records, AssessResult.strengthsL, make_bundle_scores_df,
          make_bundle_strengths]
        refine ⟨?_, ?_, ?_⟩
        · rw [List.map_map]
          have hcongr : sdg_ids.map ((fun r => r.SDG_ID) ∘ make_record (direct_score raw)
              (compute_bonus_points (direct_score raw) sdg_ids)) = sdg_ids.map id :=
            List.map_congr_left (fun a _ => make_record_id _ _ a)
          rw [hcongr, List.map_id]
        · exact List.length_pos.mp (by rw [List.length_map]; decide)
        · rw [strengths_length, List.length_map]
          decide
  · intro d
    exact calc_results_never_noscores responses now d

/-- Witness for C9 at a concrete accepted response set. -/
theorem claim9_seventeen_records_witness :
    (calculate_assessment_results r1 "2024-01-02").records.map (fun r => r.SDG_ID) = sdg_ids ∧
    (calculate_assessment_results r1 "2024-01-02").strengthsL.length = 5 ∧
    calculate_assessment_results r1 "2024-01-02" ≠
      .err "No scores could be calculated from the provided responses." none := by
  have h := claim9_seventeen_records r1 "2024-01-02"
  have hok : (calculate_assessment_results r1 "2024-01-02").isOkB = true := by decide
  exact ⟨(h.1 hok).1, (h.1 hok).2.2, h.2 none⟩

/-- C10: a checkbox question whose recorded answer is a non-empty string
(not a list) contributes nothing and raises no error, and a radio question
whose recorded answer is a non-empty string that is not among its option
labels likewise contributes nothing and raises no error. -/
theorem claim10_malformed_answers :
    ∀ q ∈ get_all_questions, ∀ (s : String) (acc : ℕ → ℚ),
      (q.qtype = QType.checkbox → s ≠ "" →
        process_response acc (q.id, Answer.str s) = .ok acc) ∧
      (q.qtype = QType.radio → s ≠ "" → (∀ p ∈ q.options, p.1 ≠ s) →
        process_response acc (q.id, Answer.str s) = .ok acc) := by
  intro q hq s acc
  have hfind : get_all_questions.find? (fun qq => qq.id == (q.id, Answer.str s).1) = some q :=
    find_id_self q hq
  constructor
  · intro ht hs
    have hse : (s == "") = false := by simpa using hs
    simp only [process_response, hfind, Answer.truthy, hse, Bool.not_false, Bool.not_true,
      Bool.false_eq_true, if_false, ht]
  · intro ht hs hopts
    have hse : (s == "") = false := by simpa using hs
    have hnone : q.options.find? (fun o => o.1 == s) = none :=
      List.find?_eq_none.mpr (by intro p hp; simpa using hopts p hp)
    simp only [process_response, hfind, Answer.truthy, hse, Bool.not_false, Bool.not_true,
      Bool.false_eq_true, if_false, ht, hnone, Option.isSome_none]

/-- Witness for C10: a string answer to the checkbox question q2 and an
unrecognized string answer to the radio question q1 each leave the
accumulator unchanged and raise no error. -/
theorem claim10_malformed_answers_witness :
    process_response (fun _ => 0) ((get_all_questions.get ⟨1, by decide⟩).id,
      Answer.str "unrecognized option") = .ok (fun _ => 0) ∧
    process_response (fun _ => 0) ((get_all_questions.get ⟨0, by decide⟩).id,
      Answer.str "unrecognized option") = .ok (fun _ => 0) := by
  have h2 := claim10_malformed_answers (get_all_questions.get ⟨1, by decide⟩)
    (List.get_mem _ _ _) "unrecognized option" (fun _ => 0)
  have h1 := claim10_malformed_answers (get_all_questions.get ⟨0, by decide⟩)
    (List.get_mem _ _ _) "unrecognized option" (fun _ => 0)
  exact ⟨h2.1 (by decide) (by decide), h1.2 (by decide) (by decide) (by decide)⟩

end SDGToolkit
